import Mathlib

/-!
Verification development for the SWAS shoe-cleaning service backend
(order-and-payment lifecycle core).

Shallow embedding of the TypeScript controllers:
  * `applyPayment`        (src/controllers/transactionController.ts)
  * `updateTransaction`   (src/controllers/transactionController.ts)
  * `createServiceRequest`(src/controllers/serviceRequestController.ts)
  * `generatePaymentId`   (src/utils/generatePaymentId.ts)
  * the change-stream notifier (src/sockets/... `initSocket` / `watchTarget`)

JS numbers are modelled as rationals, dates as natural-number ticks, the
Mongo session ("all writes buffered until commit, discarded on abort") as
a working copy of the database that is returned only on success paths.
A `fail` oracle says which storage writes throw, so that rollback
behaviour can be stated.
-/

namespace SWAS

/-! ## String helpers mirroring the JavaScript string operations used -/

/-- JS `s.split(sep)` for a single-character separator, over char lists.
`split` of the empty string is `[""]`, as in JS. -/
def splitChar (sep : Char) : List Char → List (List Char)
  | [] => [[]]
  | c :: rest =>
    if c = sep then [] :: splitChar sep rest
    else
      match splitChar sep rest with
      | [] => [[c]]
      | s :: ss => (c :: s) :: ss

/-- JS `s.split(sep)` returning strings. -/
def splitStr (sep : Char) (s : String) : List String :=
  (splitChar sep s.data).map (fun l => String.mk l)

/-- JS `String.prototype.trim` (drop whitespace at both ends). -/
def trimL (l : List Char) : List Char :=
  ((l.dropWhile Char.isWhitespace).reverse.dropWhile Char.isWhitespace).reverse

/-- JS `s.trim()` on strings. -/
def trimStr (s : String) : String := String.mk (trimL s.data)

/-- Numeric value of a digit list (the value `parseInt` gives an
all-digits string). -/
def digitsVal (l : List Char) : Nat :=
  l.foldl (fun n c => 10 * n + (c.toNat - 48)) 0

/-- JS `parseInt(s, 10)` restricted to the use sites of the source: the
longest digit prefix is parsed; an id that reaches this point always has a
digit there, and the (unreachable) no-digit case is mapped to 0. -/
def parseIntD (s : String) : Nat :=
  digitsVal (s.data.takeWhile Char.isDigit)

/-- JS `String(n).padStart(width, "0")`. -/
def pad (n : Nat) (width : Nat) : String :=
  let s := toString n
  if width ≤ s.length then s
  else String.mk (List.replicate (width - s.length) '0') ++ s

/-- Code-unit lexicographic `<` on char lists (the JS string comparison
used by Mongo's descending sort on a string field). -/
def lexLt : List Char → List Char → Bool
  | [], [] => false
  | [], _ :: _ => true
  | _ :: _, [] => false
  | a :: as, b :: bs =>
    if a.toNat < b.toNat then true
    else if b.toNat < a.toNat then false
    else lexLt as bs

/-- Greatest string of a list under `lexLt` (`.sort(desc).limit(1)`). -/
def maxStr (l : List String) : Option String :=
  l.foldl
    (fun acc s =>
      match acc with
      | none => some s
      | some a => if lexLt a.data s.data then some s else some a)
    none

/-! ## Document model (src/models) -/

/-- `Transaction` document (src/models/Transactions.ts), plus the Mongo
metadata fields `_id` (`mid`), `__v` (`version`), `createdAt`,
`updatedAt` that `updateTransaction` treats as restricted. -/
structure TxnDoc where
  transaction_id : String
  line_item_id : List String
  cust_id : String
  branch_id : String
  date_in : Nat
  received_by : String
  date_out : Option Nat
  no_pairs : ℤ
  no_released : ℤ
  total_amount : ℤ
  discount_amount : ℤ
  amount_paid : ℤ
  payment_status : String
  payments : List String
  payment_mode : String
  mid : String
  version : Nat
  createdAt : Nat
  updatedAt : Nat
deriving DecidableEq, Repr

/-- `LineItem` document (src/models/LineItem.ts); services are
(service_id, quantity) pairs. -/
structure LineItemDoc where
  line_item_id : String
  transaction_id : String
  priority : String
  cust_id : String
  services : List (String × ℤ)
  storage_fee : ℤ
  branch_id : String
  shoes : String
  current_location : String
  current_status : String
  due_date : Option Nat
  latest_update : Nat
  before_img : Option String
  after_img : Option String
deriving DecidableEq, Repr

/-- `Customer` document (src/models/Customer.ts). -/
structure CustomerDoc where
  cust_id : String
  cust_name : String
  cust_bdate : Option String
  cust_address : Option String
  cust_email : Option String
  cust_contact : Option String
  total_services : ℤ
  total_expenditure : ℤ
deriving DecidableEq, Repr

/-- `Payment` document (src/models/payments.ts). -/
structure PaymentDoc where
  payment_id : String
  transaction_id : String
  payment_amount : ℤ
  payment_mode : String
  payment_date : Nat
deriving DecidableEq, Repr

/-- `Branch` document (src/models/Branch.ts), the fields used here. -/
structure BranchDoc where
  branch_id : String
  branch_code : String
  branch_number : Nat
deriving DecidableEq, Repr

/-- `Service` document (src/models/Service.ts), the field used here. -/
structure ServiceDoc where
  service_id : String
deriving DecidableEq, Repr

/-- The ledger store.  Each collection is a list in insertion order
(`_id` order); new documents are appended at the end. -/
structure DB where
  customers : List CustomerDoc
  transactions : List TxnDoc
  lineItems : List LineItemDoc
  payments : List PaymentDoc
  branches : List BranchDoc
  services : List ServiceDoc
deriving DecidableEq, Repr

/-! ## Identifier allocators -/

/-- Match of `^PAY-(\d+)-<branch>$` (branch regex-escaped in the source,
hence literal): returns the numeric suffix when the id decomposes as
`PAY-` ++ digits ++ `-` ++ branch with a non-empty digit block. -/
def payIdSuffix (branch : String) (pid : String) : Option Nat :=
  let cs := pid.data
  let pre := ("PAY-").data
  let suf := ("-" ++ branch).data
  if pre.isPrefixOf cs then
    let rest := cs.drop pre.length
    if suf.isSuffixOf rest then
      let mid := rest.take (rest.length - suf.length)
      if mid ≠ [] ∧ mid.all Char.isDigit then some (digitsVal mid) else none
    else none
  else none

/-- `generatePaymentId` (src/utils/generatePaymentId.ts): query the
payments whose id matches `^PAY-(\d+)-<branch>$` (`find` with the
regex), sort by `_id` descending and limit to the 100 most recent
matching ones, take the maximum numeric suffix among them (the loop
re-matches each id), return `PAY-<max+1>-<branch>`. -/
def generatePaymentId (payments : List PaymentDoc) (branch : String) : String :=
  let latest := (payments.filter
    (fun p => (payIdSuffix branch p.payment_id).isSome)).reverse.take 100
  let maxNum := latest.foldl
    (fun m p =>
      match payIdSuffix branch p.payment_id with
      | some n => if m < n then n else m
      | none => m)
    0
  "PAY-" ++ toString (maxNum + 1) ++ "-" ++ branch

/-- Match of `^<ym>-\d{5}-<branch>$` used by `generateTransactionId`. -/
def txnIdMatches (ym branch : String) (tid : String) : Bool :=
  let cs := tid.data
  let pre := (ym ++ "-").data
  let suf := ("-" ++ branch).data
  pre.isPrefixOf cs &&
    (let rest := cs.drop pre.length
     suf.isSuffixOf rest &&
       (let mid := rest.take (rest.length - suf.length)
        mid.length == 5 && mid.all Char.isDigit))

/-- `generateTransactionId` (src/controllers/serviceRequestController.ts).
`month` is the 1-based calendar month (the source computes
`now.getMonth() + 1`).  The lexicographically greatest matching id is the
`.sort(transaction_id desc).limit(1)` result; its third dash-segment is
parsed and incremented, 0 when no transaction matches. -/
def generateTransactionId (txns : List TxnDoc) (year month : Nat) (branch : String) : String :=
  let ym := toString year ++ "-" ++ pad month 2
  let matching := (txns.filter (fun t => txnIdMatches ym branch t.transaction_id)).map
    (fun t => t.transaction_id)
  let lastNumber :=
    match maxStr matching with
    | none => 0
    | some tid => parseIntD ((splitStr '-' tid).getD 2 "")
  ym ++ "-" ++ pad (lastNumber + 1) 5 ++ "-" ++ branch

/-- `generateLineItemId` (src/controllers/serviceRequestController.ts):
derive the line-item id from the parent transaction id and the 0-based
line index; everything after the third dash is the branch code. -/
def generateLineItemId (transactionId : String) (lineIndex : Nat) : String :=
  let parts := splitStr '-' transactionId
  let year := parts.getD 0 ""
  let month := parts.getD 1 ""
  let trxIncrement := parts.getD 2 ""
  let branchCode := String.intercalate "-" (parts.drop 3)
  year ++ "-" ++ month ++ "-" ++ trxIncrement ++ "-" ++ pad (lineIndex + 1) 3 ++ "-" ++ branchCode

/-- Substring test `CUST-<branch_number>-` used by `generateCustomerId`
(an unanchored `RegExp`, i.e. substring match). -/
def custIdContains (branch_number : Nat) (cid : String) : Bool :=
  decide (("CUST-" ++ toString branch_number ++ "-").data <:+: cid.data)

/-- `generateCustomerId` (src/controllers/serviceRequestController.ts). -/
def generateCustomerId (customers : List CustomerDoc) (branch_number : Nat) : String :=
  let matching := (customers.filter (fun c => custIdContains branch_number c.cust_id)).map
    (fun c => c.cust_id)
  let lastNumber :=
    match maxStr matching with
    | none => 0
    | some cid => parseIntD ((splitStr '-' cid).getD 2 "")
  "CUST-" ++ toString branch_number ++ "-" ++ toString (lastNumber + 1)

/-! ## Payment Ledger: `applyPayment`
(src/controllers/transactionController.ts, lines 229-395) -/

/-- Request body of `POST /transactions/:transaction_id/apply-payment`
plus the `:transaction_id` route parameter.  `Option` models a field
absent from the JSON body. -/
structure ApplyArgs where
  transaction_id : String
  dueNow : ℤ
  customerPaid : ℤ
  modeOfPayment : Option String
  lineItemId : Option String
  markPickedUp : Bool
  payment_status : Option String
  provided_payment_id : Option String
deriving DecidableEq, Repr

/-- The storage writes `applyPayment` performs; the oracle says which of
them throw. -/
inductive WriteOp where
  | paymentW
  | txnW
  | lineItemW
  | customerW
deriving DecidableEq, Repr

/-- Responses of `applyPayment`. -/
inductive PayOutcome where
  | badRequest (msg : String)
  | notFound (msg : String)
  | serverError
  | ok (txn : TxnDoc)
deriving DecidableEq, Repr

/-- The valid `payment_status` values. -/
def VALID_STATUS : List String := ["NP", "PARTIAL", "PAID"]

/-- JS truthiness of an optional string (`undefined`, `null` and `""`
are falsy). -/
def truthyS : Option String → Bool
  | some s => !(s == "")
  | none => false

/-- The `payment_mode` update of `applyPayment` (lines 279-285): when a
mode is supplied and the existing value is empty, replace it; otherwise
append `,mode` unless `mode` equals one of the comma-split entries of
the existing value, each entry trimmed (`split(",").map(trim).includes`). -/
def updatePaymentMode (existing mode : String) : String :=
  if existing = "" then mode
  else if mode ∈ (splitStr ',' existing).map trimStr then existing
  else existing ++ "," ++ mode

/-- Branch-code resolution of `applyPayment` (lines 304-311): fall back
to the raw `branch_id` when the branch is missing or its code is empty. -/
def resolveBranchCode (db : DB) (branch_id : String) : String :=
  match db.branches.find? (fun b => b.branch_id == branch_id) with
  | some b => if b.branch_code = "" then branch_id else b.branch_code
  | none => branch_id

/-- Attach a payment id to `transaction.payments` unless already present
(lines 294-295 / 325-326). -/
def attachPayment (t : TxnDoc) (pid : String) : TxnDoc :=
  if pid ∈ t.payments then t else { t with payments := t.payments ++ [pid] }

/-- The `else` branch of the payment block (lines 302-327): when
`dueNow && dueNow > 0`, allocate a payment id for the transaction's
branch and insert a `Payment` document for `dueNow`, attaching its id.
A throw anywhere in this block is caught by the inner `catch` (line
329-332), which logs and continues, so a `paymentW` failure just skips
the insert and the attach. -/
def paymentCreate (db : DB) (a : ApplyArgs) (t4 : TxnDoc) (now : Nat)
    (fail : WriteOp → Bool) : List PaymentDoc × TxnDoc :=
  if a.dueNow ≠ 0 ∧ 0 < a.dueNow then
    let branchCode := resolveBranchCode db t4.branch_id
    let paymentId := generatePaymentId db.payments branchCode
    if fail .paymentW then (db.payments, t4)
    else
      (db.payments ++
        [{ payment_id := paymentId
           transaction_id := t4.transaction_id
           payment_amount := a.dueNow
           payment_mode :=
             match a.modeOfPayment with
             | some m => if m = "" then "Other" else m
             | none => "Other"
           payment_date := now }],
       attachPayment t4 paymentId)
  else (db.payments, t4)

/-- The payment block of `applyPayment` (lines 288-332): a truthy
`provided_payment_id` is attached when such a payment exists and is
silently dropped otherwise; without one a payment is created for a
positive `dueNow`. -/
def paymentStage (db : DB) (a : ApplyArgs) (t4 : TxnDoc) (now : Nat)
    (fail : WriteOp → Bool) : List PaymentDoc × TxnDoc :=
  match a.provided_payment_id with
  | some pid =>
    if pid = "" then paymentCreate db a t4 now fail
    else
      match db.payments.find? (fun p => p.payment_id == pid) with
      | some _ => (db.payments, attachPayment t4 pid)
      | none => (db.payments, t4)
  | none => paymentCreate db a t4 now fail

/-- Tail of `applyPayment` after the payment block, taking the payment
collection `pdb` and the transaction object `t5` the block produced: the
`date_out` rule, the transaction save, and the optional line-item +
customer updates, all inside the session; any uncaught throw aborts and
leaves `db` as it was. -/
def applyTail2 (db : DB) (a : ApplyArgs) (now : Nat) (fail : WriteOp → Bool)
    (pdb : List PaymentDoc) (t5 : TxnDoc) : PayOutcome × DB :=
  let t6 :=
    if a.markPickedUp ∧ t5.no_pairs - t5.no_released ≤ 0 then
      { t5 with date_out := some now }
    else t5
  if fail .txnW then (.serverError, db)
  else
    let db1 : DB :=
      { db with
        payments := pdb
        transactions := db.transactions.map
          (fun x => if x.transaction_id == t6.transaction_id then t6 else x) }
    if a.markPickedUp ∧ truthyS a.lineItemId then
      let lid := a.lineItemId.getD ""
      match db1.lineItems.find? (fun li => li.line_item_id == lid) with
      | none => (.notFound "Line item not found", db)
      | some _ =>
        if fail .lineItemW then (.serverError, db)
        else
          let db2 : DB :=
            { db1 with
              lineItems := db1.lineItems.map
                (fun li =>
                  if li.line_item_id == lid then { li with current_status := "Picked Up" }
                  else li) }
          match db2.customers.find? (fun c => c.cust_id == t6.cust_id) with
          | some _ =>
            if fail .customerW then (.serverError, db)
            else
              let db3 : DB :=
                { db2 with
                  customers := db2.customers.map
                    (fun c =>
                      if c.cust_id == t6.cust_id then
                        { c with
                          total_services := c.total_services + 1
                          total_expenditure := c.total_expenditure + t6.total_amount }
                      else c) }
              (.ok t6, db3)
          | none => (.ok t6, db2)
    else (.ok t6, db1)

/-- The payment block (lines 288-332) followed by the tail. -/
def applyTail (db : DB) (a : ApplyArgs) (now : Nat) (fail : WriteOp → Bool)
    (t4 : TxnDoc) : PayOutcome × DB :=
  applyTail2 db a now fail (paymentStage db a t4 now fail).1 (paymentStage db a t4 now fail).2

/-- The `payment_mode` update step (lines 278-285) followed by
`applyTail`: a truthy `modeOfPayment` is merged into the comma-joined
set before the remaining writes run. -/
def applyRest (db : DB) (a : ApplyArgs) (now : Nat) (fail : WriteOp → Bool)
    (t3 : TxnDoc) : PayOutcome × DB :=
  match a.modeOfPayment with
  | some m =>
    if m = "" then applyTail db a now fail t3
    else applyTail db a now fail { t3 with payment_mode := updatePaymentMode t3.payment_mode m }
  | none => applyTail db a now fail t3

/-- Body of `applyPayment` once the transaction is found: the
`no_released` increment, the `amount_paid` clamp (lines 256-265), the
`payment_status` validation (lines 267-276), then `applyRest`. -/
def applyOnTxn (db : DB) (a : ApplyArgs) (now : Nat) (fail : WriteOp → Bool)
    (t : TxnDoc) : PayOutcome × DB :=
  let t1 := if a.markPickedUp then { t with no_released := t.no_released + 1 } else t
  let newPaid := t1.amount_paid + a.dueNow
  let t2 :=
    { t1 with
      amount_paid := if t1.total_amount < newPaid then t1.total_amount else newPaid }
  match a.payment_status with
  | some s =>
    if s ∈ VALID_STATUS then applyRest db a now fail { t2 with payment_status := s }
    else (.badRequest "Invalid payment_status", db)
  | none => applyRest db a now fail t2

/-- `applyPayment` (lines 229-395).  `now` is the clock used for
`new Date()`; `fail` says which storage writes throw. -/
def applyPayment (db : DB) (a : ApplyArgs) (now : Nat) (fail : WriteOp → Bool) :
    PayOutcome × DB :=
  if a.transaction_id = "" then (.badRequest "transaction_id required", db)
  else
    match db.transactions.find? (fun x => x.transaction_id == a.transaction_id) with
    | none => (.notFound "Transaction not found", db)
    | some t => applyOnTxn db a now fail t

/-- One call of a sequence of `applyPayment` requests. -/
structure CallSpec where
  args : ApplyArgs
  now : Nat
  fail : WriteOp → Bool

/-- Run a sequence of `applyPayment` calls, threading the store. -/
def runPayments (db : DB) (calls : List CallSpec) : DB :=
  calls.foldl (fun d c => (applyPayment d c.args c.now c.fail).2) db

/-! ## Order Intake: `createServiceRequest`
(src/controllers/serviceRequestController.ts, lines 219-381) -/

/-- One `(service_id, quantity)` line of a line-item spec.  `quantity`
is `Option` so the `== null` validation can be expressed. -/
structure ServiceInput where
  service_id : String
  quantity : Option ℤ
deriving DecidableEq, Repr

/-- One line-item spec of the request body.  Absent optional strings are
`""` (JS falsy) where the source only tests truthiness. -/
structure LineItemInput where
  priority : String
  shoes : String
  due_date : Option Nat
  before_img : Option String
  after_img : Option String
  services : List ServiceInput
  storage_fee : Option ℤ
  current_location : Option String
deriving DecidableEq, Repr

/-- The `POST /service-request` body. -/
structure CSRInput where
  cust_name : String
  cust_bdate : Option String
  cust_address : Option String
  cust_email : Option String
  cust_contact : Option String
  branch_id : String
  received_by : String
  total_amount : Option ℤ
  discount_amount : Option ℤ
  amount_paid : Option ℤ
  payment_status : String
  payment_mode : String
  date_in : Option Nat
  no_released : Option ℤ
  lineItems : List LineItemInput
deriving DecidableEq, Repr

/-- Allowed enums (lines 93-96). -/
def PRIORITY_ENUM : List String := ["Rush", "Normal"]

/-- Allowed `current_location` values. -/
def CURRENT_LOCATION_ENUM : List String := ["Hub", "Branch"]

/-- Allowed `payment_mode` values at order intake. -/
def PAYMENT_MODE_ENUM : List String := ["Cash", "Bank", "GCash", "Other"]

/-- JS `x || null` on an optional string: `undefined` and `""` both
become `null`. -/
def jsOrNull : Option String → Option String
  | some s => if s = "" then none else some s
  | none => none

/-- `validateServiceRequestInput` (lines 176-216): collect the error
messages; the request is aborted when any exist. -/
def validateServiceRequestInput (d : CSRInput) : List String :=
  (if d.cust_name = "" then ["cust_name is required"] else []) ++
  (if d.branch_id = "" then ["branch_id is required"] else []) ++
  (if d.received_by = "" then ["received_by is required"] else []) ++
  (if d.total_amount = none then ["total_amount is required"] else []) ++
  (if d.discount_amount = none then ["discount_amount is required"] else []) ++
  (if d.amount_paid = none then ["amount_paid is required"] else []) ++
  (if d.payment_status ∈ VALID_STATUS then [] else ["payment_status must be valid"]) ++
  (if d.payment_mode ∈ PAYMENT_MODE_ENUM then [] else ["payment_mode must be valid"]) ++
  (if d.lineItems = [] then ["At least one line item is required"]
   else d.lineItems.flatMap (fun item =>
     (if item.priority ∈ PRIORITY_ENUM then [] else ["priority must be valid"]) ++
     (if item.shoes = "" then ["shoes is required"] else []) ++
     (if item.services = [] then ["services is required and cannot be empty"]
      else item.services.flatMap (fun svc =>
        (if svc.service_id = "" then ["service_id is required"] else []) ++
        (match svc.quantity with
         | none => ["quantity must be a number >= 1"]
         | some q => if q < 1 then ["quantity must be a number >= 1"] else []))) ++
     (match item.current_location with
      | some cl => if cl ≠ "" ∧ cl ∉ CURRENT_LOCATION_ENUM then ["current_location must be valid"] else []
      | none => [])))

/-- The storage writes of `createServiceRequest`, in order: the optional
customer insert, the i-th line-item insert, the optional payment insert,
the transaction insert. -/
inductive CSRWrite where
  | customerW
  | lineItemW (i : Nat)
  | paymentW
  | txnW
deriving DecidableEq, Repr

/-- Responses of `createServiceRequest`. -/
inductive CSROutcome where
  | invalid (errors : List String)
  | storageFailure
  | created (customer : CustomerDoc) (lineItems : List LineItemDoc) (txn : TxnDoc)
deriving DecidableEq, Repr

/-- Build the i-th `LineItem` document (lines 286-319). -/
def buildLineItem (item : LineItemInput) (txnId : String) (idx : Nat)
    (custId branchId : String) (now : Nat) : LineItemDoc where
  line_item_id := generateLineItemId txnId idx
  transaction_id := txnId
  priority := item.priority
  cust_id := custId
  services := item.services.map (fun s => (s.service_id, s.quantity.getD 0))
  storage_fee := (item.storage_fee.getD 0)
  branch_id := branchId
  shoes := item.shoes
  current_location :=
    match item.current_location with
    | some l => if l = "" then "Branch" else l
    | none => "Branch"
  current_status := "Queued"
  due_date := item.due_date
  latest_update := now
  before_img := jsOrNull item.before_img
  after_img := jsOrNull item.after_img

/-- The line-item save loop (lines 286-321): each save may throw, which
aborts the whole request. -/
def saveLineItems (items : List LineItemInput) (idx : Nat) (txnId custId branchId : String)
    (now : Nat) (fail : CSRWrite → Bool) : Option (List LineItemDoc) :=
  match items with
  | [] => some []
  | item :: rest =>
    if fail (.lineItemW idx) then none
    else
      match saveLineItems rest (idx + 1) txnId custId branchId now fail with
      | none => none
      | some ls => some (buildLineItem item txnId idx custId branchId now :: ls)

/-- The batch service-id existence check (lines 244-257): the distinct
requested service ids with no `Service` document. -/
def csrInvalidIds (db : DB) (d : CSRInput) : List String :=
  let allServiceIds := d.lineItems.flatMap (fun li => li.services.map (fun s => s.service_id))
  let uniqueServiceIds := allServiceIds.dedup
  let existingIds := (db.services.filter (fun s => s.service_id ∈ uniqueServiceIds)).map
    (fun s => s.service_id)
  uniqueServiceIds.filter (fun i => i ∉ existingIds)

/-- The customer lookup by `(cust_name, cust_bdate || null)` (line 260). -/
def csrFoundCustomer (db : DB) (d : CSRInput) : Option CustomerDoc :=
  db.customers.find?
    (fun c => c.cust_name == d.cust_name && c.cust_bdate == jsOrNull d.cust_bdate)

/-- The `Customer` document created for a first order (lines 265-277). -/
def csrNewCustomer (db : DB) (d : CSRInput) (branch_number : Nat) : CustomerDoc where
  cust_id := generateCustomerId db.customers branch_number
  cust_name := d.cust_name
  cust_bdate := jsOrNull d.cust_bdate
  cust_address := jsOrNull d.cust_address
  cust_email := jsOrNull d.cust_email
  cust_contact := jsOrNull d.cust_contact
  total_services := 0
  total_expenditure := 0

/-- The customer the order runs under: the looked-up one, or a fresh one. -/
def csrCustomerDoc (db : DB) (d : CSRInput) (branch_number : Nat) : CustomerDoc :=
  match csrFoundCustomer db d with
  | some c => c
  | none => csrNewCustomer db d branch_number

/-- The customer collection after the optional customer insert. -/
def csrCustomers1 (db : DB) (d : CSRInput) (branch_number : Nat) : List CustomerDoc :=
  match csrFoundCustomer db d with
  | some _ => db.customers
  | none => db.customers ++ [csrNewCustomer db d branch_number]

/-- `createServiceRequest` (lines 219-381).  `year`/`month` feed the
transaction-id allocator (`month` 1-based); `now` is the clock; `fail`
says which storage writes throw.  All writes go through the session:
any throw aborts the transaction and the original `db` is returned. -/
def createServiceRequest (db : DB) (d : CSRInput) (year month : Nat) (now : Nat)
    (fail : CSRWrite → Bool) : CSROutcome × DB :=
  if validateServiceRequestInput d ≠ [] then (.invalid (validateServiceRequestInput d), db)
  else
    match db.branches.find? (fun b => b.branch_id == d.branch_id) with
    | none => (.invalid ["Branch not found"], db)
    | some branch =>
      if csrInvalidIds db d ≠ [] then (.invalid ["Invalid service ids"], db)
      else
        if csrFoundCustomer db d = none ∧ fail .customerW then (.storageFailure, db)
        else
          let customer := csrCustomerDoc db d branch.branch_number
          let customers1 := csrCustomers1 db d branch.branch_number
          let transactionId := generateTransactionId db.transactions year month branch.branch_code
          match saveLineItems d.lineItems 0 transactionId customer.cust_id d.branch_id now fail with
          | none => (.storageFailure, db)
          | some created =>
            let amtPaid := d.amount_paid.getD 0
            let txn : TxnDoc :=
              { transaction_id := transactionId
                line_item_id := created.map (fun li => li.line_item_id)
                cust_id := customer.cust_id
                branch_id := d.branch_id
                date_in := d.date_in.getD now
                received_by := d.received_by
                date_out := none
                no_pairs := (created.length : ℤ)
                no_released := d.no_released.getD 0
                total_amount := d.total_amount.getD 0
                discount_amount := d.discount_amount.getD 0
                amount_paid := amtPaid
                payment_status := d.payment_status
                payments := []
                payment_mode := d.payment_mode
                mid := "oid-" ++ transactionId
                version := 0
                createdAt := now
                updatedAt := now }
            if amtPaid ≠ 0 ∧ 0 < amtPaid then
              let paymentId := generatePaymentId db.payments branch.branch_code
              if fail .paymentW then (.storageFailure, db)
              else
                let payment : PaymentDoc :=
                  { payment_id := paymentId
                    transaction_id := transactionId
                    payment_amount := amtPaid
                    payment_mode := d.payment_mode
                    payment_date := now }
                let txn' := { txn with payments := [paymentId] }
                if fail .txnW then (.storageFailure, db)
                else
                  (.created customer created txn',
                   { db with
                     customers := customers1
                     lineItems := db.lineItems ++ created
                     payments := db.payments ++ [payment]
                     transactions := db.transactions ++ [txn'] })
            else
              if fail .txnW then (.storageFailure, db)
              else
                (.created customer created txn,
                 { db with
                   customers := customers1
                   lineItems := db.lineItems ++ created
                   transactions := db.transactions ++ [txn] })

/-! ## `updateTransaction`
(src/controllers/transactionController.ts, lines 398-437) -/

/-- The `PUT /transactions/:transaction_id` body: each field the schema
knows, present or absent.  The first five are the restricted fields. -/
structure TxnUpdates where
  transaction_id : Option String := none
  mid : Option String := none
  version : Option Nat := none
  createdAt : Option Nat := none
  updatedAt : Option Nat := none
  line_item_id : Option (List String) := none
  cust_id : Option String := none
  branch_id : Option String := none
  date_in : Option Nat := none
  received_by : Option String := none
  date_out : Option (Option Nat) := none
  no_pairs : Option ℤ := none
  no_released : Option ℤ := none
  total_amount : Option ℤ := none
  discount_amount : Option ℤ := none
  amount_paid : Option ℤ := none
  payment_status : Option String := none
  payments : Option (List String) := none
  payment_mode : Option String := none
deriving DecidableEq, Repr

/-- Responses of `updateTransaction`. -/
inductive UpdOutcome where
  | badRequest (msg : String)
  | notFound
  | ok (txn : TxnDoc)
deriving DecidableEq, Repr

/-- `restrictedFields.forEach(field => delete updates[field])`
(lines 414-417). -/
def stripRestricted (u : TxnUpdates) : TxnUpdates :=
  { u with
    transaction_id := none
    mid := none
    version := none
    createdAt := none
    updatedAt := none }

/-- `Object.assign(transaction, updates)` (line 425): every key present
in `updates` overwrites the document's field. -/
def assignUpdates (t : TxnDoc) (u : TxnUpdates) : TxnDoc where
  transaction_id := u.transaction_id.getD t.transaction_id
  line_item_id := u.line_item_id.getD t.line_item_id
  cust_id := u.cust_id.getD t.cust_id
  branch_id := u.branch_id.getD t.branch_id
  date_in := u.date_in.getD t.date_in
  received_by := u.received_by.getD t.received_by
  date_out := u.date_out.getD t.date_out
  no_pairs := u.no_pairs.getD t.no_pairs
  no_released := u.no_released.getD t.no_released
  total_amount := u.total_amount.getD t.total_amount
  discount_amount := u.discount_amount.getD t.discount_amount
  amount_paid := u.amount_paid.getD t.amount_paid
  payment_status := u.payment_status.getD t.payment_status
  payments := u.payments.getD t.payments
  payment_mode := u.payment_mode.getD t.payment_mode
  mid := u.mid.getD t.mid
  version := u.version.getD t.version
  createdAt := u.createdAt.getD t.createdAt
  updatedAt := u.updatedAt.getD t.updatedAt

/-- The save at the end of `updateTransaction` (lines 425-430). -/
def finishUpdate (db : DB) (tid : String) (t : TxnDoc) (u : TxnUpdates) : UpdOutcome × DB :=
  let t' := assignUpdates t u
  (.ok t',
   { db with
     transactions := db.transactions.map
       (fun x => if x.transaction_id == tid then t' else x) })

/-- `updateTransaction` (lines 398-437): find the transaction, drop the
restricted fields from the body, validate a truthy `payment_status`,
assign the rest, save. -/
def updateTransaction (db : DB) (tid : String) (updates : TxnUpdates) : UpdOutcome × DB :=
  if tid = "" then (.badRequest "transaction_id required", db)
  else
    match db.transactions.find? (fun t => t.transaction_id == tid) with
    | none => (.notFound, db)
    | some t =>
      let u := stripRestricted updates
      match u.payment_status with
      | some s =>
        if s ≠ "" ∧ s ∉ VALID_STATUS then (.badRequest "Invalid payment_status", db)
        else finishUpdate db tid t u
      | none => finishUpdate db tid t u

/-! ## Change Notifier
(src/sockets change-stream wiring: `initSocket` / `watchTarget` /
`openAllStreams`) -/

/-- Backoff floor: the default `retryDelay = 1000` that every delivered
event resets `backoffDelay` to. -/
def floorBackoff : Nat := 1000

/-- Backoff cap: `Math.min(delay * 2, 30_000)`. -/
def backoffCap : Nat := 30000

/-- The closure state of one registered change stream: the last recorded
resume token (`currentToken`) and the current `backoffDelay`. -/
structure StreamConn where
  token : Option Nat
  backoff : Nat
deriving DecidableEq, Repr

/-- A pending `setTimeout(watchTarget(target, token, delay))` callback
scheduled by `scheduleRestart` or by the `catch` around
`collection.watch`.  The source never cancels these timeouts. -/
structure RestartTimer where
  token : Option Nat
  delay : Nat
deriving DecidableEq, Repr

/-- The per-collection state of the Change Notifier: the stream
registered in `activeStreams` for this target (if any) and the pending
restart timeouts, which survive every other event because nothing ever
calls `clearTimeout`. -/
structure NotifierState where
  reg : Option StreamConn
  timers : List RestartTimer
deriving DecidableEq, Repr

/-- Events driving one subscription: a delivered change event on the
registered stream (with its resume token), a stream error or unexpected
close, the `i`-th pending timeout firing (`watchOk` = whether
`collection.watch` succeeds inside `watchTarget`), an upstream
disconnect, and an upstream reconnect (again with `watchOk`). -/
inductive NotifierEvent where
  | deliver (token : Nat)
  | errorOrClose
  | timerFire (i : Nat) (watchOk : Bool)
  | disconnect
  | reconnect (watchOk : Bool)
deriving DecidableEq, Repr

/-- Transition function of one watched collection, read off the
handlers: `stream.on("change")` records the token and resets the backoff
to the floor; `scheduleRestart` (on error/close, guarded by
`activeStreams.get(event) !== stream`) deregisters and closes the stream
and schedules a `watchTarget(target, currentToken, min(backoff*2, cap))`
timeout; a firing timeout runs `watchTarget(target, token, delay)`,
registering a stream resuming from its stored token (replacing any
current registration) or, when `collection.watch` throws, re-scheduling
itself with a doubled capped delay; `db.on("disconnected")` closes the
streams registered in `activeStreams` and clears the map — pending
timeouts are NOT cancelled; `db.on("reconnected")` runs
`openAllStreams`, i.e. a fresh `watchTarget(target)` with no resume
token and the default delay — again without cancelling timeouts. -/
def notifierStep (s : NotifierState) : NotifierEvent → NotifierState
  | .deliver tok =>
    match s.reg with
    | some _ => { s with reg := some ⟨some tok, floorBackoff⟩ }
    | none => s
  | .errorOrClose =>
    match s.reg with
    | some c => ⟨none, s.timers ++ [⟨c.token, min (c.backoff * 2) backoffCap⟩]⟩
    | none => s
  | .timerFire i watchOk =>
    match s.timers[i]? with
    | some tm =>
      if watchOk then ⟨some ⟨tm.token, tm.delay⟩, s.timers.eraseIdx i⟩
      else ⟨s.reg, s.timers.eraseIdx i ++ [⟨tm.token, min (tm.delay * 2) backoffCap⟩]⟩
    | none => s
  | .disconnect => ⟨none, s.timers⟩
  | .reconnect watchOk =>
    if watchOk then ⟨some ⟨none, floorBackoff⟩, s.timers⟩
    else ⟨none, s.timers ++ [⟨none, min (floorBackoff * 2) backoffCap⟩]⟩

/-- The state right after `initSocket` ran `openAllStreams` and
`collection.watch` succeeded: a fresh stream with no resume token and
the default backoff, no pending timeouts. -/
def notifierInit : NotifierState := ⟨some ⟨none, floorBackoff⟩, []⟩

/-- A subscription's state after a trace of events. -/
def notifierRun (evs : List NotifierEvent) : NotifierState :=
  evs.foldl notifierStep notifierInit

/-! ## General helpers for the theorems -/

/-- Whether an `applyPayment` outcome is the success response. -/
def isOk : PayOutcome → Bool
  | .ok _ => true
  | _ => false

/-- Look a transaction up by `transaction_id`. -/
def getTxn (db : DB) (tid : String) : Option TxnDoc :=
  db.transactions.find? (fun x => x.transaction_id == tid)

/-! ## Specification-side definitions and concrete fixtures used by the theorems -/

/-- Specification-side reading of the allocator: the maximum parsed
numeric suffix over the candidate window (the 100 most recent payments
whose id matches the branch pattern), 0 when there is none. -/
def windowMaxSuffix (payments : List PaymentDoc) (branch : String) : Nat :=
  (((payments.filter
      (fun p => (payIdSuffix branch p.payment_id).isSome)).reverse.take 100).filterMap
    (fun p => payIdSuffix branch p.payment_id)).foldl max 0

/-- C9 witness: a body that tries to overwrite `transaction_id`, `_id`,
`__v` and `createdAt` while patching `amount_paid`. -/
def c9txn : TxnDoc where
  transaction_id := "2025-03-00001-VAL"
  line_item_id := []
  cust_id := "CUST-1-1"
  branch_id := "VAL-B"
  date_in := 0
  received_by := "staff"
  date_out := none
  no_pairs := 1
  no_released := 0
  total_amount := 1000
  discount_amount := 0
  amount_paid := 0
  payment_status := "NP"
  payments := []
  payment_mode := "Cash"
  mid := "m9"
  version := 3
  createdAt := 11
  updatedAt := 12

/-- Store holding only `c9txn`. -/
def c9db : DB where
  customers := []
  transactions := [c9txn]
  lineItems := []
  payments := []
  branches := []
  services := []

/-- A request body trying to overwrite every restricted field. -/
def c9upd : TxnUpdates :=
  { transaction_id := some "HACK", mid := some "evil", version := some 99,
    createdAt := some 0, updatedAt := some 0, amount_paid := some 250 }

/-- The document `updateTransaction` stores for the witness request. -/
def c9txn' : TxnDoc :=
  match (updateTransaction c9db "2025-03-00001-VAL" c9upd).1 with
  | .ok t => t
  | _ => c9txn

/-- The store after the witness request. -/
def c9db' : DB := (updateTransaction c9db "2025-03-00001-VAL" c9upd).2

/-- The claimed invariant: every stored transaction has
`0 ≤ amount_paid ≤ total_amount`. -/
def PaidInv (db : DB) : Prop :=
  ∀ t ∈ db.transactions, 0 ≤ t.amount_paid ∧ t.amount_paid ≤ t.total_amount

instance (db : DB) : Decidable (PaidInv db) :=
  inferInstanceAs
    (Decidable (∀ t ∈ db.transactions, 0 ≤ t.amount_paid ∧ t.amount_paid ≤ t.total_amount))

/-- A branch fixture: id `VAL-B`, code `VAL`, number 1. -/
def cexBranch : BranchDoc where
  branch_id := "VAL-B"
  branch_code := "VAL"
  branch_number := 1

/-- A service fixture. -/
def cexService : ServiceDoc where
  service_id := "SVC-1"

/-- An empty store holding just the branch and the service. -/
def cexBase : DB where
  customers := []
  transactions := []
  lineItems := []
  payments := []
  branches := [cexBranch]
  services := [cexService]

/-- A one-pair order with `total_amount = 1000` and `amount_paid = 0`. -/
def cexOrder : CSRInput where
  cust_name := "Alice"
  cust_bdate := none
  cust_address := none
  cust_email := none
  cust_contact := none
  branch_id := "VAL-B"
  received_by := "staff"
  total_amount := some 1000
  discount_amount := some 0
  amount_paid := some 0
  payment_status := "NP"
  payment_mode := "Cash"
  date_in := none
  no_released := none
  lineItems := [{ priority := "Normal", shoes := "Nike", due_date := none,
                  before_img := none, after_img := none,
                  services := [{ service_id := "SVC-1", quantity := some 1 }],
                  storage_fee := none, current_location := none }]

/-- The store after `createServiceRequest` ran on the fixture order in
March 2025 (allocating transaction id `2025-03-00001-VAL`). -/
def cexDb : DB := (createServiceRequest cexBase cexOrder 2025 3 0 (fun _ => false)).2

/-- The failure oracle for a run where no write throws. -/
def noFail : WriteOp → Bool := fun _ => false

/-- An `applyPayment` body with a negative `dueNow`. -/
def c1negArgs : ApplyArgs where
  transaction_id := "2025-03-00001-VAL"
  dueNow := -1500
  customerPaid := 0
  modeOfPayment := none
  lineItemId := none
  markPickedUp := false
  payment_status := none
  provided_payment_id := none

/-- An `applyPayment` body marking a pickup with no payment amount. -/
def c3puArgs : ApplyArgs where
  transaction_id := "2025-03-00001-VAL"
  dueNow := 0
  customerPaid := 0
  modeOfPayment := none
  lineItemId := none
  markPickedUp := true
  payment_status := none
  provided_payment_id := none

/-- The transaction the C3 fixture store holds. -/
def c3t : TxnDoc :=
  (getTxn cexDb "2025-03-00001-VAL").getD
    { transaction_id := "", line_item_id := [], cust_id := "", branch_id := "",
      date_in := 0, received_by := "", date_out := none, no_pairs := 0, no_released := 0,
      total_amount := 0, discount_amount := 0, amount_paid := 0, payment_status := "",
      payments := [], payment_mode := "", mid := "", version := 0, createdAt := 0,
      updatedAt := 0 }

/-- Result of the first C3 pickup call. -/
def c3res : PayOutcome × DB := applyPayment cexDb c3puArgs 1 noFail

/-- The transaction returned by the first C3 pickup call. -/
def c3u : TxnDoc :=
  match c3res.1 with
  | .ok u => u
  | _ => c3t

/-- The claim's own overpayment example: `dueNow = 1500` against the
fixture transaction (`total_amount = 1000`). -/
def c1posArgs : ApplyArgs := { c1negArgs with dueNow := 1500 }

/-- The transaction returned by the overpayment call. -/
def c1u : TxnDoc :=
  match (applyPayment cexDb c1posArgs 1 noFail).1 with
  | .ok u => u
  | _ => c3t

/-- An `applyPayment` body paying 500 against the fixture transaction. -/
def c2args : ApplyArgs where
  transaction_id := "2025-03-00001-VAL"
  dueNow := 500
  customerPaid := 500
  modeOfPayment := some "Cash"
  lineItemId := none
  markPickedUp := false
  payment_status := none
  provided_payment_id := none

/-- The oracle that makes only the Payment insert throw. -/
def c2fail : WriteOp → Bool := fun w => w == .paymentW

/-- An `applyPayment` body carrying an unknown pre-created payment id. -/
def c10args : ApplyArgs where
  transaction_id := "2025-03-00001-VAL"
  dueNow := 300
  customerPaid := 300
  modeOfPayment := none
  lineItemId := none
  markPickedUp := false
  payment_status := none
  provided_payment_id := some "PAY-99-XX"

/-- The failure oracle that throws at the fourth line-item insert. -/
def c4fail : CSRWrite → Bool := fun w => w == .lineItemW 3

/-- A four-pair order used for the C4 witness. -/
def c4order : CSRInput :=
  { cexOrder with
    lineItems := [{ priority := "Normal", shoes := "Nike", due_date := none,
                    before_img := none, after_img := none,
                    services := [{ service_id := "SVC-1", quantity := some 1 }],
                    storage_fee := none, current_location := none },
                  { priority := "Rush", shoes := "Vans", due_date := none,
                    before_img := none, after_img := none,
                    services := [{ service_id := "SVC-1", quantity := some 2 }],
                    storage_fee := none, current_location := none },
                  { priority := "Normal", shoes := "Puma", due_date := none,
                    before_img := none, after_img := none,
                    services := [{ service_id := "SVC-1", quantity := some 1 }],
                    storage_fee := none, current_location := none },
                  { priority := "Normal", shoes := "Asics", due_date := none,
                    before_img := none, after_img := none,
                    services := [{ service_id := "SVC-1", quantity := some 1 }],
                    storage_fee := none, current_location := none }] }

theorem find?_map' {α β : Type} (f : β → α) (l : List β) (p : α → Bool) :
    (l.map f).find? p = (l.find? (fun b => p (f b))).map f := by
  induction l with
  | nil => rfl
  | cons b l ih =>
    by_cases h : p (f b) = true
    · simp [List.find?, h]
    · simp only [Bool.not_eq_true] at h
      simp [List.find?, h, ih]

/-! ## Claim C5: identifier formats -/

/-- C5: identifier formats are stable.  For any transaction collection
holding no transaction whose id matches the `2025-03-#####-VAL` pattern,
the allocated id for branch code `VAL` in March 2025 is exactly
`2025-03-00001-VAL`, and the derived id of its first line item
(index 0) is exactly `2025-03-00001-001-VAL`. -/
theorem C5_identifier_formats (txns : List TxnDoc)
    (h : ∀ t ∈ txns, txnIdMatches "2025-03" "VAL" t.transaction_id = false) :
    generateTransactionId txns 2025 3 "VAL" = "2025-03-00001-VAL" ∧
    generateLineItemId "2025-03-00001-VAL" 0 = "2025-03-00001-001-VAL" := by
  constructor
  · have hym : (toString 2025 ++ "-" ++ pad 3 2) = "2025-03" := by decide
    have hfil : txns.filter (fun t => txnIdMatches "2025-03" "VAL" t.transaction_id) = [] := by
      rw [List.filter_eq_nil_iff]
      intro t ht
      simp [h t ht]
    simp only [generateTransactionId]
    rw [hym, hfil]
    decide
  · decide

/-- C5 witness: the empty transaction collection. -/
theorem C5_identifier_formats_witness :
    generateTransactionId [] 2025 3 "VAL" = "2025-03-00001-VAL" ∧
    generateLineItemId "2025-03-00001-VAL" 0 = "2025-03-00001-001-VAL" :=
  C5_identifier_formats [] (by intro t ht; cases ht)

/-! ## Claim C6: payment id allocation -/

theorem payFold_eq_maxFold (branch : String) (l : List PaymentDoc) (m : Nat) :
    l.foldl
      (fun m p =>
        match payIdSuffix branch p.payment_id with
        | some n => if m < n then n else m
        | none => m) m
      = (l.filterMap (fun p => payIdSuffix branch p.payment_id)).foldl max m := by
  induction l generalizing m with
  | nil => rfl
  | cons p l ih =>
    cases hp : payIdSuffix branch p.payment_id with
    | none => simp [List.foldl, List.filterMap_cons, hp, ih]
    | some n =>
      simp only [List.foldl, List.filterMap_cons, hp, ih]
      congr 1
      rcases Nat.lt_or_ge m n with h | h
      · simp [h, Nat.max_eq_right (Nat.le_of_lt h)]
      · have : ¬ m < n := Nat.not_lt.mpr h
        simp [this, Nat.max_eq_left h]

/-- C6: payment id allocation is branch-scoped and monotonic.
`generatePaymentId` returns `PAY-<m+1>-<branch>` with `m` the maximum
numeric suffix over the candidate window (0 when none); in particular,
for branch `NCR` and a payment collection with no matching ids, the
first allocated id is `PAY-1-NCR`, and after that payment is inserted
the next allocated id is `PAY-2-NCR`. -/
theorem C6_payment_id_allocation (payments : List PaymentDoc)
    (h : ∀ p ∈ payments, payIdSuffix "NCR" p.payment_id = none)
    (pdoc : PaymentDoc) (hp : pdoc.payment_id = "PAY-1-NCR") :
    (∀ (ps : List PaymentDoc) (branch : String),
      generatePaymentId ps branch = "PAY-" ++ toString (windowMaxSuffix ps branch + 1) ++ "-" ++ branch) ∧
    generatePaymentId payments "NCR" = "PAY-1-NCR" ∧
    generatePaymentId (payments ++ [pdoc]) "NCR" = "PAY-2-NCR" := by
  have hfil : payments.filter (fun p => (payIdSuffix "NCR" p.payment_id).isSome) = [] := by
    rw [List.filter_eq_nil_iff]
    intro p hpmem
    simp [h p hpmem]
  refine ⟨?_, ?_, ?_⟩
  · intro ps branch
    simp only [generatePaymentId, windowMaxSuffix]
    rw [payFold_eq_maxFold]
  · simp only [generatePaymentId]
    rw [hfil]
    decide
  · have hm : (payIdSuffix "NCR" pdoc.payment_id).isSome = true := by
      rw [hp]
      decide
    simp only [generatePaymentId]
    rw [List.filter_append, hfil, List.nil_append, List.filter_cons, hm]
    simp only [eq_self_iff_true, if_true, List.filter_nil, List.reverse_cons, List.reverse_nil,
      List.nil_append, List.take_succ_cons, List.take_nil, List.foldl_cons, List.foldl_nil, hp]
    have h1 : payIdSuffix "NCR" "PAY-1-NCR" = some 1 := by decide
    rw [h1]
    decide

/-- C6 witness: the empty payment collection and the literal first
payment document. -/
theorem C6_payment_id_allocation_witness :
    generatePaymentId [] "NCR" = "PAY-1-NCR" ∧
    generatePaymentId
      ([] ++ [{ payment_id := "PAY-1-NCR", transaction_id := "T", payment_amount := 1,
                payment_mode := "Cash", payment_date := 0 : PaymentDoc }]) "NCR" = "PAY-2-NCR" :=
  let pd : PaymentDoc :=
    { payment_id := "PAY-1-NCR", transaction_id := "T", payment_amount := 1,
      payment_mode := "Cash", payment_date := 0 }
  ⟨(C6_payment_id_allocation [] (by intro p hp; cases hp) pd rfl).2.1,
   (C6_payment_id_allocation [] (by intro p hp; cases hp) pd rfl).2.2⟩

/-! ## Claim C8: Change Notifier state machine -/

/-- C8 counterexample: restart timeouts are never cancelled.  Trace: a
delivered event records token 5; an error deregisters the stream and
schedules a resume-from-5 timeout; the upstream then disconnects (the
timeout survives — the stream was already out of `activeStreams`, and
nothing calls `clearTimeout`) and reconnects, registering a fresh
no-resume stream; when the surviving timeout fires it replaces that
fresh stream with one resuming from the stored token 5.  So after a
disconnect/reconnect the running subscription does resume from a stored
position, falsifying the claimed "reopen all fresh without resuming"
clause. -/
theorem C8_notifier_state_machine_counterexample :
    notifierRun [.deliver 5, .errorOrClose, .disconnect, .reconnect true,
      .timerFire 0 true] = ⟨some ⟨some 5, 2000⟩, []⟩ ∧
    notifierRun [.deliver 5, .errorOrClose, .disconnect, .reconnect true] =
      ⟨some ⟨none, floorBackoff⟩, [⟨some 5, 2000⟩]⟩ ∧
    (some 5 : Option Nat) ≠ none := by
  decide

/-- C8 (amended): each handler behaves as specified — a delivered event
on the registered stream records its resume token and resets the backoff
to the floor; an error or unexpected close deregisters the stream and
schedules a reopen after `min(backoff*2, cap)` carrying the recorded
token (from the start when none); a firing timeout reopens with exactly
its stored token and delay; a disconnect closes/deregisters the open
subscription; a successful reconnect registers a fresh subscription with
no resume token — BUT pending restart timeouts are never cancelled: both
disconnect and reconnect leave them in place, and a survivor that fires
later re-registers a stream resuming from its stored position (see the
counterexample). -/
theorem C8_notifier_state_machine_amended :
    (∀ (s : NotifierState) (c : StreamConn) (tok : Nat), s.reg = some c →
      notifierStep s (.deliver tok) = ⟨some ⟨some tok, floorBackoff⟩, s.timers⟩) ∧
    (∀ (s : NotifierState) (c : StreamConn), s.reg = some c →
      notifierStep s .errorOrClose =
        ⟨none, s.timers ++ [⟨c.token, min (c.backoff * 2) backoffCap⟩]⟩) ∧
    (∀ (s : NotifierState) (i : Nat) (tm : RestartTimer), s.timers[i]? = some tm →
      notifierStep s (.timerFire i true) = ⟨some ⟨tm.token, tm.delay⟩, s.timers.eraseIdx i⟩) ∧
    (∀ s : NotifierState,
      (notifierStep s .disconnect).reg = none ∧
      (notifierStep s .disconnect).timers = s.timers) ∧
    (∀ s : NotifierState,
      (notifierStep s (.reconnect true)).reg = some ⟨none, floorBackoff⟩ ∧
      (notifierStep s (.reconnect true)).timers = s.timers) := by
  refine ⟨?_, ?_, ?_, ?_, ?_⟩
  · intro s c tok h
    simp [notifierStep, h]
  · intro s c h
    simp [notifierStep, h]
  · intro s i tm h
    simp [notifierStep, h]
  · intro s
    simp [notifierStep]
  · intro s
    simp [notifierStep]

/-- C8 witness: the amended theorem applied to a concrete registered
stream with recorded token 7 and backoff 1000, and to a concrete
pending timeout. -/
theorem C8_notifier_state_machine_amended_witness :
    notifierStep ⟨some ⟨some 7, 1000⟩, []⟩ .errorOrClose =
      ⟨none, ([] : List RestartTimer) ++ [⟨some 7, min (1000 * 2) backoffCap⟩]⟩ ∧
    notifierStep ⟨none, [⟨some 7, 2000⟩]⟩ (.timerFire 0 true) =
      ⟨some ⟨some 7, 2000⟩, ([⟨some 7, 2000⟩] : List RestartTimer).eraseIdx 0⟩ :=
  ⟨C8_notifier_state_machine_amended.2.1 ⟨some ⟨some 7, 1000⟩, []⟩ ⟨some 7, 1000⟩ rfl,
   C8_notifier_state_machine_amended.2.2.1 ⟨none, [⟨some 7, 2000⟩]⟩ 0 ⟨some 7, 2000⟩ rfl⟩

/-! ## Claim C7: `payment_mode` accumulation -/

theorem splitChar_ne_nil (sep : Char) (l : List Char) : splitChar sep l ≠ [] := by
  induction l with
  | nil => simp [splitChar]
  | cons c rest ih =>
    simp only [splitChar]
    by_cases h : c = sep
    · simp [h]
    · simp only [h, if_false]
      cases hs : splitChar sep rest with
      | nil => exact absurd hs ih
      | cons s ss => simp

theorem splitChar_append_sep (sep : Char) (xs ys : List Char) :
    splitChar sep (xs ++ sep :: ys) = splitChar sep xs ++ splitChar sep ys := by
  induction xs with
  | nil => simp [splitChar]
  | cons c xs ih =>
    by_cases h : c = sep
    · simp [splitChar, h, ih]
    · simp only [List.cons_append, splitChar, h, if_false, List.append_eq]
      rw [ih]
      cases hs : splitChar sep xs with
      | nil => exact absurd hs (splitChar_ne_nil sep xs)
      | cons s ss => simp [hs]

theorem splitChar_no_sep (sep : Char) (xs : List Char) (h : sep ∉ xs) :
    splitChar sep xs = [xs] := by
  induction xs with
  | nil => rfl
  | cons c xs ih =>
    have hc : ¬ c = sep := fun hc => h (hc ▸ List.mem_cons_self c xs)
    have hx : sep ∉ xs := fun hx => h (List.mem_cons_of_mem c hx)
    simp [splitChar, hc, ih hx]

theorem splitStr_append_comma (e m : String) (hm : ',' ∉ m.data) :
    splitStr ',' (e ++ "," ++ m) = splitStr ',' e ++ [m] := by
  have hdata : (e ++ "," ++ m).data = e.data ++ ',' :: m.data := by
    simp [String.data_append]
  simp only [splitStr, hdata, splitChar_append_sep, splitChar_no_sep ',' m.data hm,
    List.map_append, List.map_cons, List.map_nil]

theorem append_comma_ne_empty (e m : String) : e ++ "," ++ m ≠ "" := by
  intro h
  have : (e ++ "," ++ m).data = ("" : String).data := by rw [h]
  simp [String.data_append] at this

/-- C7 counterexample: the membership test trims the existing comma-split
entries but compares the supplied mode verbatim.  With the transaction's
`payment_mode` equal to `"Cash"`, applying mode `" Cash"` (leading
space) twice appends it twice: after the first call the stored set is
`"Cash, Cash"`, of which `" Cash"` is already an exact member, yet the
second call appends again, so `" Cash"` ends up twice in the
comma-joined set — the update is neither guarded by exact membership nor
duplicate-free. -/
theorem C7_mode_membership_counterexample :
    updatePaymentMode "Cash" " Cash" = "Cash, Cash" ∧
    " Cash" ∈ splitStr ',' "Cash, Cash" ∧
    updatePaymentMode "Cash, Cash" " Cash" = "Cash, Cash, Cash" ∧
    (splitStr ',' "Cash, Cash, Cash").count " Cash" = 2 := by
  decide

/-- C7 (amended): the membership check is against the trimmed comma-split
entries, with the supplied mode compared verbatim.  For a supplied mode
that contains no comma and equals its own trim (in particular, every
well-formed mode such as `Cash`/`GCash`/`Bank`/`Other`): a mode already
present among the trimmed entries leaves `payment_mode` unchanged, the
update is idempotent, and it preserves distinctness of the trimmed
entries, so such a mode never appears twice. -/
theorem C7_mode_membership_amended (e m : String)
    (htrim : trimStr m = m) (hcomma : ',' ∉ m.data) :
    (m ∈ (splitStr ',' e).map trimStr → updatePaymentMode e m = e) ∧
    updatePaymentMode (updatePaymentMode e m) m = updatePaymentMode e m ∧
    (((splitStr ',' e).map trimStr).Nodup →
      ((splitStr ',' (updatePaymentMode e m)).map trimStr).Nodup) := by
  have hsplitm : splitStr ',' m = [m] := by
    simp [splitStr, splitChar_no_sep ',' m.data hcomma]
  refine ⟨?_, ?_, ?_⟩
  · intro hmem
    by_cases he : e = ""
    · subst he
      have hm : m = "" := by
        simpa [splitStr, splitChar, trimStr, trimL] using hmem
      subst hm
      decide
    · simp [updatePaymentMode, he, hmem]
  · by_cases he : e = ""
    · subst he
      by_cases hm0 : m = ""
      · subst hm0
        decide
      · have h1 : updatePaymentMode "" m = m := by simp [updatePaymentMode]
        rw [h1]
        have hmem : m ∈ (splitStr ',' m).map trimStr := by
          rw [hsplitm]
          simp [htrim]
        simp [updatePaymentMode, hm0, hmem]
    · by_cases hmem : m ∈ (splitStr ',' e).map trimStr
      · simp [updatePaymentMode, he, hmem]
      · simp only [updatePaymentMode, he, if_false, hmem, if_neg hmem]
        have hne := append_comma_ne_empty e m
        have hsp := splitStr_append_comma e m hcomma
        have : m ∈ (splitStr ',' (e ++ "," ++ m)).map trimStr := by
          rw [hsp]
          simp [htrim]
        simp [hne, this]
  · intro hnd
    by_cases he : e = ""
    · subst he
      simp only [updatePaymentMode, if_pos rfl]
      simp [hsplitm]
    · by_cases hmem : m ∈ (splitStr ',' e).map trimStr
      · simpa [updatePaymentMode, he, hmem] using hnd
      · simp only [updatePaymentMode, he, if_false, hmem, if_neg hmem]
        rw [splitStr_append_comma e m hcomma]
        simp only [List.map_append, List.map_cons, List.map_nil]
        rw [List.nodup_append]
        refine ⟨hnd, by simp, ?_⟩
        intro x hx hy
        have hxm : x = m := by simpa [htrim] using hy
        exact hmem (hxm ▸ hx)

/-- C7 witness for the amended theorem: mode `Cash` against an existing
set `GCash`. -/
theorem C7_mode_membership_amended_witness :
    ("Cash" ∈ (splitStr ',' "GCash").map trimStr → updatePaymentMode "GCash" "Cash" = "GCash") ∧
    updatePaymentMode (updatePaymentMode "GCash" "Cash") "Cash" = updatePaymentMode "GCash" "Cash" ∧
    (((splitStr ',' "GCash").map trimStr).Nodup →
      ((splitStr ',' (updatePaymentMode "GCash" "Cash")).map trimStr).Nodup) :=
  C7_mode_membership_amended "GCash" "Cash" (by decide) (by decide)

/-! ## Claim C9: `updateTransaction` restricted fields -/

/-- C9: on a successful `PUT /transactions/:transaction_id`, whatever the
body contains, the identifier and audit fields (`transaction_id`, `_id`,
`__v`, `createdAt`) of the stored document keep their previous values,
every other schema field is overwritten exactly when the body supplies
it (and keeps its previous value otherwise), and the store replaces only
the matching document. -/
theorem C9_update_restricted_fields (db : DB) (tid : String) (u : TxnUpdates)
    (t t' : TxnDoc) (db' : DB)
    (hfind : db.transactions.find? (fun x => x.transaction_id == tid) = some t)
    (hupd : updateTransaction db tid u = (.ok t', db')) :
    (t'.transaction_id = t.transaction_id ∧ t'.mid = t.mid ∧
     t'.version = t.version ∧ t'.createdAt = t.createdAt ∧ t'.updatedAt = t.updatedAt) ∧
    (t'.line_item_id = u.line_item_id.getD t.line_item_id ∧
     t'.cust_id = u.cust_id.getD t.cust_id ∧
     t'.branch_id = u.branch_id.getD t.branch_id ∧
     t'.date_in = u.date_in.getD t.date_in ∧
     t'.received_by = u.received_by.getD t.received_by ∧
     t'.date_out = u.date_out.getD t.date_out ∧
     t'.no_pairs = u.no_pairs.getD t.no_pairs ∧
     t'.no_released = u.no_released.getD t.no_released ∧
     t'.total_amount = u.total_amount.getD t.total_amount ∧
     t'.discount_amount = u.discount_amount.getD t.discount_amount ∧
     t'.amount_paid = u.amount_paid.getD t.amount_paid ∧
     t'.payment_status = u.payment_status.getD t.payment_status ∧
     t'.payments = u.payments.getD t.payments ∧
     t'.payment_mode = u.payment_mode.getD t.payment_mode) ∧
    db'.transactions = db.transactions.map
      (fun x => if x.transaction_id == tid then t' else x) := by
  by_cases htid : tid = ""
  · rw [updateTransaction, if_pos htid] at hupd
    cases hupd
  · rcases hps : (stripRestricted u).payment_status with _ | s
    · simp only [updateTransaction, if_neg htid, hfind, hps, finishUpdate,
        Prod.mk.injEq, UpdOutcome.ok.injEq] at hupd
      obtain ⟨ht', hdb'⟩ := hupd
      subst ht'
      refine ⟨?_, ?_, ?_⟩
      · simp [assignUpdates, stripRestricted]
      · simp [assignUpdates, stripRestricted]
      · rw [← hdb']
    · by_cases hbad : s ≠ "" ∧ s ∉ VALID_STATUS
      · simp only [updateTransaction, if_neg htid, hfind, hps, if_pos hbad,
          Prod.mk.injEq] at hupd
        exact absurd hupd.1 (by simp)
      · simp only [updateTransaction, if_neg htid, hfind, hps, if_neg hbad, finishUpdate,
          Prod.mk.injEq, UpdOutcome.ok.injEq] at hupd
        obtain ⟨ht', hdb'⟩ := hupd
        subst ht'
        refine ⟨?_, ?_, ?_⟩
        · simp [assignUpdates, stripRestricted]
        · simp [assignUpdates, stripRestricted]
        · rw [← hdb']

theorem C9_update_restricted_fields_witness :
    (c9txn'.transaction_id = c9txn.transaction_id ∧ c9txn'.mid = c9txn.mid ∧
     c9txn'.version = c9txn.version ∧ c9txn'.createdAt = c9txn.createdAt ∧
     c9txn'.updatedAt = c9txn.updatedAt) ∧
    (c9txn'.line_item_id = c9upd.line_item_id.getD c9txn.line_item_id ∧
     c9txn'.cust_id = c9upd.cust_id.getD c9txn.cust_id ∧
     c9txn'.branch_id = c9upd.branch_id.getD c9txn.branch_id ∧
     c9txn'.date_in = c9upd.date_in.getD c9txn.date_in ∧
     c9txn'.received_by = c9upd.received_by.getD c9txn.received_by ∧
     c9txn'.date_out = c9upd.date_out.getD c9txn.date_out ∧
     c9txn'.no_pairs = c9upd.no_pairs.getD c9txn.no_pairs ∧
     c9txn'.no_released = c9upd.no_released.getD c9txn.no_released ∧
     c9txn'.total_amount = c9upd.total_amount.getD c9txn.total_amount ∧
     c9txn'.discount_amount = c9upd.discount_amount.getD c9txn.discount_amount ∧
     c9txn'.amount_paid = c9upd.amount_paid.getD c9txn.amount_paid ∧
     c9txn'.payment_status = c9upd.payment_status.getD c9txn.payment_status ∧
     c9txn'.payments = c9upd.payments.getD c9txn.payments ∧
     c9txn'.payment_mode = c9upd.payment_mode.getD c9txn.payment_mode) ∧
    c9db'.transactions = c9db.transactions.map
      (fun x => if x.transaction_id == "2025-03-00001-VAL" then c9txn' else x) :=
  C9_update_restricted_fields c9db "2025-03-00001-VAL" c9upd c9txn c9txn' c9db'
    (by decide) (by decide)

/-! ## Characterization of `applyPayment` used by claims C1, C2, C3, C10 -/

theorem paymentCreate_snd (db : DB) (a : ApplyArgs) (t4 : TxnDoc) (now : Nat)
    (fail : WriteOp → Bool) :
    ∃ l, (paymentCreate db a t4 now fail).2 = { t4 with payments := l } := by
  unfold paymentCreate
  by_cases hdue : a.dueNow ≠ 0 ∧ 0 < a.dueNow
  · simp only [if_pos hdue]
    by_cases hf : fail .paymentW = true
    · simp only [hf, if_true]
      exact ⟨t4.payments, rfl⟩
    · simp only [Bool.not_eq_true] at hf
      simp only [hf, Bool.false_eq_true, if_false, attachPayment]
      by_cases hmem :
          generatePaymentId db.payments (resolveBranchCode db t4.branch_id) ∈ t4.payments
      · simp only [if_pos hmem]
        exact ⟨t4.payments, rfl⟩
      · simp only [if_neg hmem]
        exact ⟨_, rfl⟩
  · simp only [if_neg hdue]
    exact ⟨t4.payments, rfl⟩

theorem paymentStage_snd (db : DB) (a : ApplyArgs) (t4 : TxnDoc) (now : Nat)
    (fail : WriteOp → Bool) :
    ∃ l, (paymentStage db a t4 now fail).2 = { t4 with payments := l } := by
  unfold paymentStage
  rcases hp : a.provided_payment_id with _ | pid
  · simp only [hp]
    exact paymentCreate_snd db a t4 now fail
  · simp only [hp]
    by_cases hpe : pid = ""
    · simp only [if_pos hpe]
      exact paymentCreate_snd db a t4 now fail
    · simp only [if_neg hpe]
      rcases hf : db.payments.find? (fun p => p.payment_id == pid) with _ | q
      · simp only [hf]
        exact ⟨t4.payments, rfl⟩
      · simp only [hf, attachPayment]
        by_cases hmem : pid ∈ t4.payments
        · simp only [if_pos hmem]
          exact ⟨t4.payments, rfl⟩
        · simp only [if_neg hmem]
          exact ⟨_, rfl⟩

theorem applyTail2_spec (db : DB) (a : ApplyArgs) (now : Nat) (fail : WriteOp → Bool)
    (pdb : List PaymentDoc) (t5 : TxnDoc) :
    ((applyTail2 db a now fail pdb t5).2 = db ∧ isOk (applyTail2 db a now fail pdb t5).1 = false) ∨
    (∃ u, (applyTail2 db a now fail pdb t5).1 = .ok u ∧
      u.transaction_id = t5.transaction_id ∧
      u.cust_id = t5.cust_id ∧
      u.no_pairs = t5.no_pairs ∧
      u.no_released = t5.no_released ∧
      u.total_amount = t5.total_amount ∧
      u.amount_paid = t5.amount_paid ∧
      u.payment_status = t5.payment_status ∧
      u.date_out = (if a.markPickedUp = true ∧ t5.no_pairs - t5.no_released ≤ 0
                    then some now else t5.date_out) ∧
      (applyTail2 db a now fail pdb t5).2.transactions = db.transactions.map
        (fun x => if x.transaction_id == t5.transaction_id then u else x)) := by
  by_cases htx : fail .txnW = true
  · left
    simp [applyTail2, htx, isOk]
  · simp only [Bool.not_eq_true] at htx
    by_cases hdo : a.markPickedUp = true ∧ t5.no_pairs - t5.no_released ≤ 0
    · by_cases hli : a.markPickedUp = true ∧ truthyS a.lineItemId = true
      · simp only [applyTail2, if_pos hdo, htx, Bool.false_eq_true, if_false, if_pos hli]
        split
        · left
          simp [isOk]
        · by_cases hfl : fail .lineItemW = true
          · left
            simp [hfl, isOk]
          · simp only [Bool.not_eq_true] at hfl
            simp only [hfl, Bool.false_eq_true, if_false]
            split
            · by_cases hfc : fail .customerW = true
              · left
                simp [hfc, isOk]
              · simp only [Bool.not_eq_true] at hfc
                simp only [hfc, Bool.false_eq_true, if_false]
                right
                exact ⟨_, rfl, rfl, rfl, rfl, rfl, rfl, rfl, rfl, by simp [if_pos hdo]⟩
            · right
              exact ⟨_, rfl, rfl, rfl, rfl, rfl, rfl, rfl, rfl, by simp [if_pos hdo]⟩
      · simp only [applyTail2, if_pos hdo, htx, Bool.false_eq_true, if_false, if_neg hli]
        right
        exact ⟨_, rfl, rfl, rfl, rfl, rfl, rfl, rfl, rfl, by simp [if_pos hdo]⟩
    · by_cases hli : a.markPickedUp = true ∧ truthyS a.lineItemId = true
      · simp only [applyTail2, if_neg hdo, htx, Bool.false_eq_true, if_false, if_pos hli]
        split
        · left
          simp [isOk]
        · by_cases hfl : fail .lineItemW = true
          · left
            simp [hfl, isOk]
          · simp only [Bool.not_eq_true] at hfl
            simp only [hfl, Bool.false_eq_true, if_false]
            split
            · by_cases hfc : fail .customerW = true
              · left
                simp [hfc, isOk]
              · simp only [Bool.not_eq_true] at hfc
                simp only [hfc, Bool.false_eq_true, if_false]
                right
                exact ⟨_, rfl, rfl, rfl, rfl, rfl, rfl, rfl, rfl, by simp [if_neg hdo]⟩
            · right
              exact ⟨_, rfl, rfl, rfl, rfl, rfl, rfl, rfl, rfl, by simp [if_neg hdo]⟩
      · simp only [applyTail2, if_neg hdo, htx, Bool.false_eq_true, if_false, if_neg hli]
        right
        exact ⟨_, rfl, rfl, rfl, rfl, rfl, rfl, rfl, rfl, by simp [if_neg hdo]⟩

theorem applyTail_spec (db : DB) (a : ApplyArgs) (now : Nat) (fail : WriteOp → Bool)
    (t4 : TxnDoc) :
    ((applyTail db a now fail t4).2 = db ∧ isOk (applyTail db a now fail t4).1 = false) ∨
    (∃ u, (applyTail db a now fail t4).1 = .ok u ∧
      u.transaction_id = t4.transaction_id ∧
      u.cust_id = t4.cust_id ∧
      u.no_pairs = t4.no_pairs ∧
      u.no_released = t4.no_released ∧
      u.total_amount = t4.total_amount ∧
      u.amount_paid = t4.amount_paid ∧
      u.payment_status = t4.payment_status ∧
      u.date_out = (if a.markPickedUp = true ∧ t4.no_pairs - t4.no_released ≤ 0
                    then some now else t4.date_out) ∧
      (applyTail db a now fail t4).2.transactions = db.transactions.map
        (fun x => if x.transaction_id == t4.transaction_id then u else x)) := by
  obtain ⟨l, hl⟩ := paymentStage_snd db a t4 now fail
  unfold applyTail
  rw [hl]
  rcases applyTail2_spec db a now fail (paymentStage db a t4 now fail).1
      { t4 with payments := l } with h | ⟨u, hok, h1, h2, h3, h4, h5, h6, h7, h8, h9⟩
  · exact Or.inl h
  · right
    exact ⟨u, hok, h1, h2, h3, h4, h5, h6, h7, h8, h9⟩

theorem applyRest_spec (db : DB) (a : ApplyArgs) (now : Nat) (fail : WriteOp → Bool)
    (t3 : TxnDoc) :
    ((applyRest db a now fail t3).2 = db ∧ isOk (applyRest db a now fail t3).1 = false) ∨
    (∃ u, (applyRest db a now fail t3).1 = .ok u ∧
      u.transaction_id = t3.transaction_id ∧
      u.cust_id = t3.cust_id ∧
      u.no_pairs = t3.no_pairs ∧
      u.no_released = t3.no_released ∧
      u.total_amount = t3.total_amount ∧
      u.amount_paid = t3.amount_paid ∧
      u.date_out = (if a.markPickedUp = true ∧ t3.no_pairs - t3.no_released ≤ 0
                    then some now else t3.date_out) ∧
      (applyRest db a now fail t3).2.transactions = db.transactions.map
        (fun x => if x.transaction_id == t3.transaction_id then u else x)) := by
  rcases hm : a.modeOfPayment with _ | m
  · simp only [applyRest, hm]
    rcases applyTail_spec db a now fail t3 with h | ⟨u, hok, h1, h2, h3, h4, h5, h6, h7, h8, h9⟩
    · exact Or.inl h
    · exact Or.inr ⟨u, hok, h1, h2, h3, h4, h5, h6, h8, h9⟩
  · simp only [applyRest, hm]
    by_cases hme : m = ""
    · simp only [if_pos hme]
      rcases applyTail_spec db a now fail t3 with h | ⟨u, hok, h1, h2, h3, h4, h5, h6, h7, h8, h9⟩
      · exact Or.inl h
      · exact Or.inr ⟨u, hok, h1, h2, h3, h4, h5, h6, h8, h9⟩
    · simp only [if_neg hme]
      rcases applyTail_spec db a now fail
          { t3 with payment_mode := updatePaymentMode t3.payment_mode m } with
        h | ⟨u, hok, h1, h2, h3, h4, h5, h6, h7, h8, h9⟩
      · exact Or.inl h
      · exact Or.inr ⟨u, hok, h1, h2, h3, h4, h5, h6, h8, h9⟩

theorem applyOnTxn_spec (db : DB) (a : ApplyArgs) (now : Nat) (fail : WriteOp → Bool)
    (t : TxnDoc) :
    ((applyOnTxn db a now fail t).2 = db ∧ isOk (applyOnTxn db a now fail t).1 = false) ∨
    (∃ u, (applyOnTxn db a now fail t).1 = .ok u ∧
      u.transaction_id = t.transaction_id ∧
      u.cust_id = t.cust_id ∧
      u.no_pairs = t.no_pairs ∧
      u.total_amount = t.total_amount ∧
      u.no_released = (if a.markPickedUp = true then t.no_released + 1 else t.no_released) ∧
      u.amount_paid = (if t.total_amount < t.amount_paid + a.dueNow then t.total_amount
                       else t.amount_paid + a.dueNow) ∧
      u.date_out = (if a.markPickedUp = true ∧
                      t.no_pairs - (if a.markPickedUp = true then t.no_released + 1
                                    else t.no_released) ≤ 0
                    then some now else t.date_out) ∧
      (applyOnTxn db a now fail t).2.transactions = db.transactions.map
        (fun x => if x.transaction_id == t.transaction_id then u else x)) := by
  by_cases hmk : a.markPickedUp = true
  · simp only [applyOnTxn, if_pos hmk]
    rcases hps : a.payment_status with _ | st
    · rcases applyRest_spec db a now fail
          { t with no_released := t.no_released + 1,
                   amount_paid := if t.total_amount < t.amount_paid + a.dueNow then t.total_amount
                                  else t.amount_paid + a.dueNow } with
        h | ⟨u, hok, h1, h2, h3, h4, h5, h6, h7, h8⟩
      · exact Or.inl h
      · exact Or.inr ⟨u, hok, h1, h2, h3, h5, h4, h6, h7, h8⟩
    · by_cases hst : st ∈ VALID_STATUS
      · simp only [if_pos hst]
        rcases applyRest_spec db a now fail
            { t with no_released := t.no_released + 1,
                     amount_paid := if t.total_amount < t.amount_paid + a.dueNow then t.total_amount
                                    else t.amount_paid + a.dueNow,
                     payment_status := st } with
          h | ⟨u, hok, h1, h2, h3, h4, h5, h6, h7, h8⟩
        · exact Or.inl h
        · exact Or.inr ⟨u, hok, h1, h2, h3, h5, h4, h6, h7, h8⟩
      · simp only [if_neg hst]
        left
        simp [isOk]
  · simp only [applyOnTxn, if_neg hmk]
    rcases hps : a.payment_status with _ | st
    · rcases applyRest_spec db a now fail
          { t with amount_paid := if t.total_amount < t.amount_paid + a.dueNow then t.total_amount
                                  else t.amount_paid + a.dueNow } with
        h | ⟨u, hok, h1, h2, h3, h4, h5, h6, h7, h8⟩
      · exact Or.inl h
      · exact Or.inr ⟨u, hok, h1, h2, h3, h5, h4, h6, h7, h8⟩
    · by_cases hst : st ∈ VALID_STATUS
      · simp only [if_pos hst]
        rcases applyRest_spec db a now fail
            { t with amount_paid := if t.total_amount < t.amount_paid + a.dueNow then t.total_amount
                                    else t.amount_paid + a.dueNow,
                     payment_status := st } with
          h | ⟨u, hok, h1, h2, h3, h4, h5, h6, h7, h8⟩
        · exact Or.inl h
        · exact Or.inr ⟨u, hok, h1, h2, h3, h5, h4, h6, h7, h8⟩
      · simp only [if_neg hst]
        left
        simp [isOk]

theorem applyPayment_spec (db : DB) (a : ApplyArgs) (now : Nat) (fail : WriteOp → Bool) :
    ((applyPayment db a now fail).2 = db ∧ isOk (applyPayment db a now fail).1 = false) ∨
    (∃ t u, db.transactions.find? (fun x => x.transaction_id == a.transaction_id) = some t ∧
      (applyPayment db a now fail).1 = .ok u ∧
      u.transaction_id = t.transaction_id ∧
      u.cust_id = t.cust_id ∧
      u.no_pairs = t.no_pairs ∧
      u.total_amount = t.total_amount ∧
      u.no_released = (if a.markPickedUp = true then t.no_released + 1 else t.no_released) ∧
      u.amount_paid = (if t.total_amount < t.amount_paid + a.dueNow then t.total_amount
                       else t.amount_paid + a.dueNow) ∧
      u.date_out = (if a.markPickedUp = true ∧
                      t.no_pairs - (if a.markPickedUp = true then t.no_released + 1
                                    else t.no_released) ≤ 0
                    then some now else t.date_out) ∧
      (applyPayment db a now fail).2.transactions = db.transactions.map
        (fun x => if x.transaction_id == t.transaction_id then u else x)) := by
  by_cases hid : a.transaction_id = ""
  · left
    simp [applyPayment, hid, isOk]
  · rcases hf : db.transactions.find? (fun x => x.transaction_id == a.transaction_id) with _ | t
    · left
      simp [applyPayment, hid, hf, isOk]
    · simp only [applyPayment, if_neg hid, hf]
      rcases applyOnTxn_spec db a now fail t with h | ⟨u, hok, h1, h2, h3, h4, h5, h6, h7, h8⟩
      · exact Or.inl h
      · exact Or.inr ⟨t, u, rfl, hok, h1, h2, h3, h4, h5, h6, h7, h8⟩

/-! ## Claim C1: `amount_paid` bounds -/

theorem applyPayment_preserves_paidInv (db : DB) (a : ApplyArgs) (now : Nat)
    (fail : WriteOp → Bool) (hdue : 0 ≤ a.dueNow) (hinv : PaidInv db) :
    PaidInv (applyPayment db a now fail).2 := by
  rcases applyPayment_spec db a now fail with ⟨h, _⟩ |
    ⟨t, u, hfind, hok, h1, h2, h3, h4, h5, h6, h7, h8⟩
  · rw [h]
    exact hinv
  · intro x hx
    rw [h8] at hx
    rcases List.mem_map.mp hx with ⟨y, hy, rfl⟩
    by_cases hidy : (y.transaction_id == t.transaction_id) = true
    · simp only [hidy, if_true]
      have ht := hinv t (List.mem_of_find?_eq_some hfind)
      rw [h6, h4]
      constructor
      · split
        · linarith [ht.1, ht.2]
        · linarith [ht.1]
      · split
        · linarith
        · linarith [ht.2]
    · simp only [Bool.not_eq_true] at hidy
      simp only [hidy, Bool.false_eq_true, if_false]
      exact hinv y hy

/-- C1 (amended).  Unconditionally, every successful `applyPayment`
call returns (and stores) a transaction with
`amount_paid ≤ total_amount` — the upper clamp needs no hypotheses.
The full claimed invariant `0 ≤ amount_paid ≤ total_amount` holds for
every sequence of `applyPayment` calls provided every `dueNow` is
nonnegative and every stored transaction starts inside the bounds.
(The code never clamps below 0, and `createServiceRequest` copies the
supplied `amount_paid` unclamped, so both extra hypotheses are
necessary — see the counterexample.) -/
theorem C1_paid_bounds_amended :
    (∀ (db : DB) (a : ApplyArgs) (now : Nat) (fail : WriteOp → Bool) (u : TxnDoc),
      (applyPayment db a now fail).1 = .ok u → u.amount_paid ≤ u.total_amount) ∧
    (∀ (db : DB) (calls : List CallSpec),
      (∀ c ∈ calls, 0 ≤ c.args.dueNow) → PaidInv db → PaidInv (runPayments db calls)) := by
  constructor
  · intro db a now fail u hok
    rcases applyPayment_spec db a now fail with ⟨_, hko⟩ |
      ⟨t, u0, hfind, hok0, h1, h2, h3, h4, h5, h6, h7, h8⟩
    · rw [hok] at hko
      simp [isOk] at hko
    · have hueq : u0 = u := PayOutcome.ok.inj (hok0.symm.trans hok)
      subst hueq
      rw [h6, h4]
      split
      · exact le_refl _
      · linarith [le_of_not_lt (by assumption : ¬ t.total_amount < t.amount_paid + a.dueNow)]
  · intro db calls hdue hinv
    induction calls generalizing db with
    | nil => exact hinv
    | cons c cs ih =>
      have hstep := applyPayment_preserves_paidInv db c.args c.now c.fail
        (hdue c (List.mem_cons_self c cs)) hinv
      exact ih (applyPayment db c.args c.now c.fail).2
        (fun x hx => hdue x (List.mem_cons_of_mem c hx)) hstep

/-- C1 counterexample: on the transaction created by
`createServiceRequest` with `total_amount = 1000` and `amount_paid = 0`,
one `applyPayment` call with `dueNow = -1500` drives `amount_paid` to
`-1500`, outside `[0, total_amount]` — the clamp only caps the upper
side, so the claimed invariant fails for negative `dueNow`. -/
theorem C1_paid_bounds_counterexample :
    cexDb.transactions.map TxnDoc.total_amount = [1000] ∧
    (runPayments cexDb [⟨c1negArgs, 1, noFail⟩]).transactions.map TxnDoc.amount_paid
      = [-1500] ∧
    ¬ (0 ≤ (-1500 : ℤ)) := by
  decide

/-- C1 witness: the unconditional clamp at the claim's own example
(`dueNow = 1500` against `total_amount = 1000`), and the invariant over
a two-call sequence with nonnegative `dueNow` values. -/
theorem C1_paid_bounds_witness :
    c1u.amount_paid ≤ c1u.total_amount ∧
    PaidInv (runPayments cexDb
      [⟨{ c1negArgs with dueNow := 700 }, 1, noFail⟩,
       ⟨{ c1negArgs with dueNow := 700 }, 2, noFail⟩]) :=
  ⟨C1_paid_bounds_amended.1 cexDb c1posArgs 1 noFail c1u (by decide),
   C1_paid_bounds_amended.2 cexDb _ (by decide) (by decide)⟩

/-! ## Claim C3: `no_released` bound and `date_out` -/

theorem applyPayment_dateOut_mono (db : DB) (a : ApplyArgs) (now : Nat)
    (fail : WriteOp → Bool) (tid : String) (t : TxnDoc)
    (h : getTxn db tid = some t) :
    ∃ t', getTxn (applyPayment db a now fail).2 tid = some t' ∧
      (t.date_out ≠ none → t'.date_out ≠ none) := by
  rcases applyPayment_spec db a now fail with ⟨h2, _⟩ |
    ⟨t0, u, hfind, hok, h1, h2, h3, h4, h5, h6, h7, h8⟩
  · rw [h2]
    exact ⟨t, h, fun hd => hd⟩
  · unfold getTxn at h ⊢
    rw [h8, find?_map']
    have hpf : (fun b : TxnDoc =>
        ((if (b.transaction_id == t0.transaction_id) = true then u else b).transaction_id == tid))
        = (fun b : TxnDoc => (b.transaction_id == tid)) := by
      funext b
      by_cases hb : (b.transaction_id == t0.transaction_id) = true
      · have hbe : b.transaction_id = t0.transaction_id := by simpa using hb
        rw [if_pos hb, h1, hbe]
      · simp only [Bool.not_eq_true] at hb
        simp only [hb, Bool.false_eq_true, if_false]
    rw [hpf, h]
    refine ⟨_, rfl, ?_⟩
    intro hd
    by_cases htt : (t.transaction_id == t0.transaction_id) = true
    · simp only [htt, if_true]
      have htid : t.transaction_id = tid := by
        have := List.find?_some h
        simpa using this
      have ht0id : t0.transaction_id = a.transaction_id := by
        have := List.find?_some hfind
        simpa using this
      have htt' : t.transaction_id = t0.transaction_id := by simpa using htt
      have hteq : t = t0 := by
        have hsame : tid = a.transaction_id := by rw [← htid, htt', ht0id]
        rw [hsame] at h
        have := h.symm.trans hfind
        exact Option.some.inj this
      rw [h7]
      by_cases hc : a.markPickedUp = true ∧
          (t0.no_pairs - if a.markPickedUp = true then t0.no_released + 1
                         else t0.no_released) ≤ 0
      · rw [if_pos hc]
        simp
      · rw [if_neg hc, ← hteq]
        exact hd
    · simp only [Bool.not_eq_true] at htt
      simp only [htt, Bool.false_eq_true, if_false]
      exact hd

/-- C3 (amended).  Single call: a successful `applyPayment` with
`markPickedUp` increments `no_released` by exactly 1 with no upper bound
(so it can exceed `no_pairs` — see the counterexample), leaves it
unchanged otherwise, never changes `no_pairs`, and after the call
`date_out` is non-null exactly when it already was or the call had
`markPickedUp` with `no_pairs ≤ no_released + 1` at entry.  Sequences:
once `date_out` is non-null it stays non-null over every sequence of
`applyPayment` calls. -/
theorem C3_released_dateout_amended :
    (∀ (db : DB) (a : ApplyArgs) (now : Nat) (fail : WriteOp → Bool) (t u : TxnDoc) (db' : DB),
      getTxn db a.transaction_id = some t →
      applyPayment db a now fail = (.ok u, db') →
      u.no_released = (if a.markPickedUp = true then t.no_released + 1 else t.no_released) ∧
      u.no_pairs = t.no_pairs ∧
      (u.date_out ≠ none ↔
        (t.date_out ≠ none ∨
          (a.markPickedUp = true ∧ t.no_pairs - (t.no_released + 1) ≤ 0))) ∧
      db'.transactions = db.transactions.map
        (fun x => if x.transaction_id == t.transaction_id then u else x)) ∧
    (∀ (db : DB) (calls : List CallSpec) (tid : String) (t : TxnDoc),
      getTxn db tid = some t → t.date_out ≠ none →
      ∃ t', getTxn (runPayments db calls) tid = some t' ∧ t'.date_out ≠ none) := by
  constructor
  · intro db a now fail t u db' hget happ
    rcases applyPayment_spec db a now fail with ⟨h2, hko⟩ |
      ⟨t0, u0, hfind, hok, h1, h2, h3, h4, h5, h6, h7, h8⟩
    · rw [happ] at hko
      simp [isOk] at hko
    · have hteq : t0 = t := Option.some.inj ((hfind.symm.trans hget))
      subst hteq
      have hueq : u0 = u := by
        rw [happ] at hok
        exact (PayOutcome.ok.inj hok.symm)
      subst hueq
      refine ⟨h5, h3, ?_, ?_⟩
      · rw [h7]
        by_cases hmk : a.markPickedUp = true
        · simp only [hmk, true_and, if_pos]
          by_cases hc : t0.no_pairs - (t0.no_released + 1) ≤ 0
          · rw [if_pos (by simpa [hmk] using hc)]
            simp [hc]
          · rw [if_neg (by simpa [hmk] using hc)]
            simp [hc]
        · rw [if_neg (by simp [hmk])]
          simp [hmk]
      · rw [happ] at h8
        exact h8
  · intro db calls tid t hget hdo
    induction calls generalizing db t with
    | nil => exact ⟨t, hget, hdo⟩
    | cons c cs ih =>
      obtain ⟨t', hget', hdo'⟩ :=
        applyPayment_dateOut_mono db c.args c.now c.fail tid t hget
      exact ih (applyPayment db c.args c.now c.fail).2 t' hget' (hdo' hdo)

/-- C3 counterexample: the fixture order has one pair
(`no_pairs = 1`, `no_released = 0`); two `applyPayment` calls with
`markPickedUp = true` leave `no_released = 2 > no_pairs = 1`, so
`no_released` does exceed `no_pairs` — nothing bounds the increment. -/
theorem C3_released_dateout_counterexample :
    (runPayments cexDb [⟨c3puArgs, 1, noFail⟩, ⟨c3puArgs, 2, noFail⟩]).transactions.map
      (fun t => (t.no_released, t.no_pairs)) = [((2 : ℤ), (1 : ℤ))] ∧
    ¬ ((2 : ℤ) ≤ (1 : ℤ)) := by
  decide

/-- C3 witness: the single-step part of the amended theorem applied to
the fixture store and one pickup call. -/
theorem C3_released_dateout_witness :
    c3u.no_released = (if c3puArgs.markPickedUp = true then c3t.no_released + 1
                       else c3t.no_released) ∧
    c3u.no_pairs = c3t.no_pairs ∧
    (c3u.date_out ≠ none ↔
      (c3t.date_out ≠ none ∨
        (c3puArgs.markPickedUp = true ∧ c3t.no_pairs - (c3t.no_released + 1) ≤ 0))) ∧
    c3res.2.transactions = cexDb.transactions.map
      (fun x => if x.transaction_id == c3t.transaction_id then c3u else x) :=
  C3_released_dateout_amended.1 cexDb c3puArgs 1 noFail c3t c3u c3res.2
    (by decide) (by decide)

/-! ## Claim C2: atomicity of `applyPayment` -/

/-- C2 counterexample: with the Payment insert throwing, the inner
`catch` swallows the failure ("don't fail the whole operation"), the
call still succeeds, the transaction update is persisted
(`amount_paid` becomes 500) while no Payment document exists — so a
failing constituent write does not leave everything as it was. -/
theorem C2_payment_atomicity_counterexample :
    isOk (applyPayment cexDb c2args 1 c2fail).1 = true ∧
    (applyPayment cexDb c2args 1 c2fail).2.payments = [] ∧
    (applyPayment cexDb c2args 1 c2fail).2.transactions.map TxnDoc.amount_paid
      = [(500 : ℤ)] ∧
    (applyPayment cexDb c2args 1 c2fail).2 ≠ cexDb := by
  decide

/-- C2 (amended): `applyPayment` rolls every write back whenever it
returns an error response — a failing transaction save, line-item save
or customer save aborts the whole unit and the store is unchanged.  But
the Payment insert is the exception: its failure is caught and
swallowed, the call still succeeds, the other writes (in particular the
transaction update) are persisted, and no Payment is created or
attached. -/
theorem C2_payment_atomicity_amended :
    (∀ (db : DB) (a : ApplyArgs) (now : Nat) (fail : WriteOp → Bool),
      isOk (applyPayment db a now fail).1 = false → (applyPayment db a now fail).2 = db) ∧
    (∀ (db : DB) (a : ApplyArgs) (now : Nat) (fail : WriteOp → Bool) (t : TxnDoc),
      a.transaction_id ≠ "" →
      getTxn db a.transaction_id = some t →
      a.payment_status = none →
      a.markPickedUp = false →
      a.provided_payment_id = none →
      0 < a.dueNow →
      fail .paymentW = true →
      fail .txnW = false →
      ∃ u, (applyPayment db a now fail).1 = .ok u ∧
        (applyPayment db a now fail).2.payments = db.payments ∧
        u.payments = t.payments ∧
        (applyPayment db a now fail).2.transactions = db.transactions.map
          (fun x => if x.transaction_id == t.transaction_id then u else x) ∧
        u.amount_paid = (if t.total_amount < t.amount_paid + a.dueNow then t.total_amount
                         else t.amount_paid + a.dueNow)) := by
  constructor
  · intro db a now fail hko
    rcases applyPayment_spec db a now fail with ⟨h, _⟩ | ⟨t, u, _, hok, _⟩
    · exact h
    · rw [hok] at hko
      simp [isOk] at hko
  · intro db a now fail t hid hget hps hmk hprov hdue hfp hft
    have hfind : db.transactions.find? (fun x => x.transaction_id == a.transaction_id)
        = some t := hget
    have hdue2 : a.dueNow ≠ 0 ∧ 0 < a.dueNow := ⟨ne_of_gt hdue, hdue⟩
    rcases hm : a.modeOfPayment with _ | m
    · simp only [applyPayment, if_neg hid, hfind, applyOnTxn, hmk, Bool.false_eq_true,
        if_false, hps, applyRest, hm, applyTail, paymentStage, hprov, paymentCreate,
        if_pos hdue2, hfp, eq_self_iff_true, if_true, applyTail2, false_and, hft]
      refine ⟨_, rfl, ?_, ?_, ?_, ?_⟩ <;> simp
    · by_cases hme : m = ""
      · simp only [applyPayment, if_neg hid, hfind, applyOnTxn, hmk, Bool.false_eq_true,
          if_false, hps, applyRest, hm, if_pos hme, applyTail, paymentStage, hprov,
          paymentCreate, if_pos hdue2, hfp, eq_self_iff_true, if_true, applyTail2,
          false_and, hft]
        refine ⟨_, rfl, ?_, ?_, ?_, ?_⟩ <;> simp
      · simp only [applyPayment, if_neg hid, hfind, applyOnTxn, hmk, Bool.false_eq_true,
          if_false, hps, applyRest, hm, if_neg hme, applyTail, paymentStage, hprov,
          paymentCreate, if_pos hdue2, hfp, eq_self_iff_true, if_true, applyTail2,
          false_and, hft]
        refine ⟨_, rfl, ?_, ?_, ?_, ?_⟩ <;> simp

/-- C2 witness: the amended theorem applied to the fixture store with
only the Payment insert failing. -/
theorem C2_payment_atomicity_witness :
    ∃ u, (applyPayment cexDb c2args 1 c2fail).1 = .ok u ∧
      (applyPayment cexDb c2args 1 c2fail).2.payments = cexDb.payments ∧
      u.payments = c3t.payments ∧
      (applyPayment cexDb c2args 1 c2fail).2.transactions = cexDb.transactions.map
        (fun x => if x.transaction_id == c3t.transaction_id then u else x) ∧
      u.amount_paid = (if c3t.total_amount < c3t.amount_paid + c2args.dueNow
                       then c3t.total_amount else c3t.amount_paid + c2args.dueNow) :=
  C2_payment_atomicity_amended.2 cexDb c2args 1 c2fail c3t (by decide) (by decide)
    (by decide) (by decide) (by decide) (by decide) (by decide) (by decide)

/-! ## Claim C10: unknown `provided_payment_id` -/

/-- C10: a call whose `provided_payment_id` matches no Payment document
still succeeds — the unknown id is logged and dropped, the transaction's
`payments` list is unchanged, no Payment document is created for
`dueNow`, and (with no pickup requested) line items and customers are
untouched. -/
theorem C10_unknown_provided_payment (db : DB) (a : ApplyArgs) (now : Nat)
    (fail : WriteOp → Bool) (t : TxnDoc) (pid : String)
    (hid : a.transaction_id ≠ "")
    (hget : getTxn db a.transaction_id = some t)
    (hprov : a.provided_payment_id = some pid) (hpe : pid ≠ "")
    (hnone : db.payments.find? (fun p => p.payment_id == pid) = none)
    (hps : a.payment_status = none) (hmk : a.markPickedUp = false)
    (hft : fail .txnW = false) :
    ∃ u, (applyPayment db a now fail).1 = .ok u ∧
      u.payments = t.payments ∧
      (applyPayment db a now fail).2.payments = db.payments ∧
      (applyPayment db a now fail).2.lineItems = db.lineItems ∧
      (applyPayment db a now fail).2.customers = db.customers := by
  have hfind : db.transactions.find? (fun x => x.transaction_id == a.transaction_id)
      = some t := hget
  rcases hm : a.modeOfPayment with _ | m
  · simp only [applyPayment, if_neg hid, hfind, applyOnTxn, hmk, Bool.false_eq_true,
      if_false, hps, applyRest, hm, applyTail, paymentStage, hprov, if_neg hpe, hnone,
      applyTail2, false_and, hft]
    refine ⟨_, rfl, ?_, ?_, ?_, ?_⟩ <;> simp
  · by_cases hme : m = ""
    · simp only [applyPayment, if_neg hid, hfind, applyOnTxn, hmk, Bool.false_eq_true,
        if_false, hps, applyRest, hm, if_pos hme, applyTail, paymentStage, hprov,
        if_neg hpe, hnone, applyTail2, false_and, hft]
      refine ⟨_, rfl, ?_, ?_, ?_, ?_⟩ <;> simp
    · simp only [applyPayment, if_neg hid, hfind, applyOnTxn, hmk, Bool.false_eq_true,
        if_false, hps, applyRest, hm, if_neg hme, applyTail, paymentStage, hprov,
        if_neg hpe, hnone, applyTail2, false_and, hft]
      refine ⟨_, rfl, ?_, ?_, ?_, ?_⟩ <;> simp

/-- C10 witness: the fixture store (no payment `PAY-99-XX` exists). -/
theorem C10_unknown_provided_payment_witness :
    ∃ u, (applyPayment cexDb c10args 1 noFail).1 = .ok u ∧
      u.payments = c3t.payments ∧
      (applyPayment cexDb c10args 1 noFail).2.payments = cexDb.payments ∧
      (applyPayment cexDb c10args 1 noFail).2.lineItems = cexDb.lineItems ∧
      (applyPayment cexDb c10args 1 noFail).2.customers = cexDb.customers :=
  C10_unknown_provided_payment cexDb c10args 1 noFail c3t "PAY-99-XX" (by decide)
    (by decide) (by decide) (by decide) (by decide) (by decide) (by decide) (by decide)

/-! ## Claim C4: atomicity of `createServiceRequest` -/

/-- C4: `createServiceRequest` is atomic.  Any validation failure or
storage failure (a throw at the customer insert, at any line-item
insert, at the payment insert or at the transaction insert) leaves the
store exactly as it was — zero documents persisted.  On success the
resolved/created customer, every created line item, and the transaction
exist in the store, and when `amount_paid > 0` a Payment document for
that amount exists whose id is the transaction's one-element `payments`
list. -/
theorem C4_order_intake_atomicity (db : DB) (d : CSRInput) (year month now : Nat)
    (fail : CSRWrite → Bool) :
    ((createServiceRequest db d year month now fail).1 = .storageFailure →
      (createServiceRequest db d year month now fail).2 = db) ∧
    (∀ errs, (createServiceRequest db d year month now fail).1 = .invalid errs →
      (createServiceRequest db d year month now fail).2 = db) ∧
    (∀ c lis txn, (createServiceRequest db d year month now fail).1 = .created c lis txn →
      c ∈ (createServiceRequest db d year month now fail).2.customers ∧
      txn ∈ (createServiceRequest db d year month now fail).2.transactions ∧
      (∀ li ∈ lis, li ∈ (createServiceRequest db d year month now fail).2.lineItems) ∧
      (0 < d.amount_paid.getD 0 →
        ∃ p ∈ (createServiceRequest db d year month now fail).2.payments,
          txn.payments = [p.payment_id] ∧ p.payment_amount = d.amount_paid.getD 0)) := by
  have hcust : ∀ br : BranchDoc,
      csrCustomerDoc db d br.branch_number ∈ csrCustomers1 db d br.branch_number := by
    intro br
    unfold csrCustomerDoc csrCustomers1
    rcases hfc : csrFoundCustomer db d with _ | c0
    · simp
    · simp only
      exact List.mem_of_find?_eq_some hfc
  by_cases herr : validateServiceRequestInput d ≠ []
  · simp only [createServiceRequest, if_pos herr]
    exact ⟨fun _ => by simp, fun _ _ => by simp, fun c lis txn h => by simp at h⟩
  · rcases hbr : db.branches.find? (fun b => b.branch_id == d.branch_id) with _ | branch
    · simp only [createServiceRequest, if_neg herr, hbr]
      exact ⟨fun _ => by simp, fun _ _ => by simp, fun c lis txn h => by simp at h⟩
    · by_cases hsvc : csrInvalidIds db d ≠ []
      · simp only [createServiceRequest, if_neg herr, hbr, if_pos hsvc]
        exact ⟨fun _ => by simp, fun _ _ => by simp, fun c lis txn h => by simp at h⟩
      · by_cases hcw : csrFoundCustomer db d = none ∧ fail .customerW = true
        · simp only [createServiceRequest, if_neg herr, hbr, if_neg hsvc, if_pos hcw]
          exact ⟨fun _ => by simp, fun _ _ => by simp, fun c lis txn h => by simp at h⟩
        · rcases hsl : saveLineItems d.lineItems 0
              (generateTransactionId db.transactions year month branch.branch_code)
              (csrCustomerDoc db d branch.branch_number).cust_id d.branch_id now fail with
            _ | created
          · simp only [createServiceRequest, if_neg herr, hbr, if_neg hsvc, if_neg hcw, hsl]
            exact ⟨fun _ => by simp, fun _ _ => by simp, fun c lis txn h => by simp at h⟩
          · by_cases hpay : d.amount_paid.getD 0 ≠ 0 ∧ 0 < d.amount_paid.getD 0
            · by_cases hfp : fail .paymentW = true
              · simp only [createServiceRequest, if_neg herr, hbr, if_neg hsvc, if_neg hcw,
                  hsl, if_pos hpay, hfp, if_true]
                exact ⟨fun _ => by simp, fun _ _ => by simp, fun c lis txn h => by simp at h⟩
              · simp only [Bool.not_eq_true] at hfp
                by_cases hft : fail .txnW = true
                · simp only [createServiceRequest, if_neg herr, hbr, if_neg hsvc, if_neg hcw,
                    hsl, if_pos hpay, hfp, Bool.false_eq_true, if_false, hft, if_true]
                  exact ⟨fun _ => by simp, fun _ _ => by simp, fun c lis txn h => by simp at h⟩
                · simp only [Bool.not_eq_true] at hft
                  simp only [createServiceRequest, if_neg herr, hbr, if_neg hsvc, if_neg hcw,
                    hsl, if_pos hpay, hfp, hft, Bool.false_eq_true, if_false]
                  refine ⟨fun h => by simp at h, fun errs h => by simp at h, ?_⟩
                  intro c lis txn h
                  simp only [CSROutcome.created.injEq] at h
                  obtain ⟨hc, hlis, htxn⟩ := h
                  subst hc hlis htxn
                  refine ⟨?_, ?_, ?_, ?_⟩
                  · exact hcust branch
                  · exact List.mem_append_right _ (List.mem_singleton.mpr rfl)
                  · intro li hli
                    exact List.mem_append_right _ hli
                  · intro hpos
                    refine ⟨_, List.mem_append_right _ (List.mem_singleton.mpr rfl), rfl, rfl⟩
            · by_cases hft : fail .txnW = true
              · simp only [createServiceRequest, if_neg herr, hbr, if_neg hsvc, if_neg hcw,
                  hsl, if_neg hpay, hft, if_true]
                exact ⟨fun _ => by simp, fun _ _ => by simp, fun c lis txn h => by simp at h⟩
              · simp only [Bool.not_eq_true] at hft
                simp only [createServiceRequest, if_neg herr, hbr, if_neg hsvc, if_neg hcw,
                  hsl, if_neg hpay, hft, Bool.false_eq_true, if_false]
                refine ⟨fun h => by simp at h, fun errs h => by simp at h, ?_⟩
                intro c lis txn h
                simp only [CSROutcome.created.injEq] at h
                obtain ⟨hc, hlis, htxn⟩ := h
                subst hc hlis htxn
                refine ⟨?_, ?_, ?_, ?_⟩
                · exact hcust branch
                · exact List.mem_append_right _ (List.mem_singleton.mpr rfl)
                · intro li hli
                  exact List.mem_append_right _ hli
                · intro hpos
                  exact absurd ⟨ne_of_gt hpos, hpos⟩ hpay

/-- C4 witness: inject a failure after the third line-item insert (the
fourth write throws) — the outcome is a storage failure and zero
documents are persisted: the store equals the original fixture store. -/
theorem C4_order_intake_atomicity_witness :
    (createServiceRequest cexBase c4order 2025 3 0 c4fail).2 = cexBase :=
  (C4_order_intake_atomicity cexBase c4order 2025 3 0 c4fail).1 (by decide)

end SWAS
